import Mathlib

/-!
Verification development for the CASF verifier core
(`services/verifier/src/verifier/`): a shallow embedding in Lean 4 of the
decision pipeline (`main.py:_verify_core`), the rule engine
(`rules.py:apply_rules_v0`), the idempotency / rate-limit store
(`rate_limiter.py`) and the audit hash chain (`audit.py`), together with
theorems checking the specification's claims against this embedding.

Conventions of the embedding:
* Python values that can appear in a `model_dump()` result are modelled by
  the mutual inductives `PyVal` / `PyList` / `PyDict` (floats are not used by
  any of the pydantic models involved and are left out).
* `json.dumps(obj, sort_keys=True, separators=(",", ":"), ensure_ascii=False)`
  is modelled twice, exactly as it occurs twice in the source: with the
  `default=` handler of `audit._canonical_json` (total) and without a
  `default` handler as in `rate_limiter._request_fingerprint` (partial:
  `none` models the `TypeError` raised on a `uuid.UUID` or `datetime` value).
* `hashlib.sha256(...).hexdigest()` is implemented bit-for-bit over the
  UTF-8 bytes of the input string, with 32-bit words as `Nat` reduced
  `% 2 ^ 32`.
* Machine-level concerns (sockets, SQL, real TTL clocks) are modelled by
  explicit state and by failure flags in an `Env` record: a raised exception
  of an external call is a flag, the Redis keyspace is an association list,
  the audit table is the list of appended rows.
-/

set_option maxRecDepth 10000

namespace Casf

/-! ## Python/JSON value model -/

mutual

inductive PyVal where
  | null : PyVal
  | bool (b : Bool) : PyVal
  | int (n : Int) : PyVal
  | str (s : String) : PyVal
  | uuid (s : String) : PyVal
  | datetime (iso : String) : PyVal
  | arr (xs : PyList) : PyVal
  | dict (kvs : PyDict) : PyVal

inductive PyList where
  | nil : PyList
  | cons (hd : PyVal) (tl : PyList) : PyList

inductive PyDict where
  | nil : PyDict
  | cons (key : String) (val : PyVal) (tl : PyDict) : PyDict

end

/-- Hex digit characters, lowercase (as `hexdigest` emits them). -/
def hexChar (n : Nat) : Char :=
  if n < 10 then Char.ofNat (48 + n) else Char.ofNat (87 + n % 16)

/-- One character of a Python `json.dumps(..., ensure_ascii=False)` string
literal: `"` and `\` are escaped, control characters use the short escapes
`\n \t \r \b \f` or `\u00XX`, everything else is emitted verbatim. -/
def jsonEscapeChar (c : Char) : String :=
  if c = '"' then "\\\""
  else if c = '\\' then "\\\\"
  else if c = '\n' then "\\n"
  else if c = '\t' then "\\t"
  else if c = '\r' then "\\r"
  else if c.toNat = 8 then "\\b"
  else if c.toNat = 12 then "\\f"
  else if c.toNat < 32 then
    "\\u00" ++ String.mk [hexChar (c.toNat / 16), hexChar (c.toNat % 16)]
  else String.mk [c]

/-- A JSON string literal as Python's `json.dumps` renders it. -/
def jsonQuote (s : String) : String :=
  "\"" ++ String.join (s.data.map jsonEscapeChar) ++ "\""

/-- Code-point comparison on strings (Python's `str` ordering used by
`sort_keys=True`). -/
def charListLe : List Char → List Char → Bool
  | a :: as, b :: bs =>
    if a.toNat < b.toNat then true
    else if b.toNat < a.toNat then false
    else charListLe as bs
  | [], _ => true
  | _, _ => false

def strLe (a b : String) : Bool := charListLe a.data b.data

/-- Stable insertion of a rendered key/value pair into a key-sorted list. -/
def insertByKey (p : String × String) : List (String × String) → List (String × String)
  | [] => [p]
  | q :: rest => if strLe q.1 p.1 then q :: insertByKey p rest else p :: q :: rest

/-- Stable sort by key (Python's `sorted` on dict items under `sort_keys`). -/
def sortByKey : List (String × String) → List (String × String)
  | [] => []
  | p :: rest => insertByKey p (sortByKey rest)

def commaJoin : List String → String
  | [] => ""
  | [x] => x
  | x :: xs => x ++ "," ++ commaJoin xs

/-- Left-to-right, non-overlapping replacement of every occurrence of `pat`
(Python's `str.replace`); fuel-driven so the kernel can evaluate it. -/
def replaceGo (pat rep : List Char) : Nat → List Char → List Char
  | _, [] => []
  | 0, l => l
  | fuel + 1, c :: rest =>
    if pat.isPrefixOf (c :: rest) then
      rep ++ replaceGo pat rep fuel ((c :: rest).drop pat.length)
    else c :: replaceGo pat rep fuel rest

def pyReplace (s pat rep : String) : String :=
  String.mk (replaceGo pat.data rep.data s.data.length s.data)

/-- Model of `datetime.isoformat()` with `+00:00` replaced by `Z`
(`audit._canonical_json`'s `_default`). -/
def isoZ (s : String) : String := pyReplace s "+00:00" "Z"

/-! `audit._canonical_json`: `json.dumps(obj, sort_keys=True,
separators=(",", ":"), ensure_ascii=False, default=_default)` where
`_default` maps a `uuid.UUID` to `str(o)` and a `datetime` to
`o.isoformat().replace("+00:00", "Z")`. -/

mutual

def canonicalJson : PyVal → String
  | .null => "null"
  | .bool true => "true"
  | .bool false => "false"
  | .int n => toString n
  | .str s => jsonQuote s
  | .uuid s => jsonQuote s
  | .datetime iso => jsonQuote (isoZ iso)
  | .arr xs => "[" ++ canonicalJsonList xs ++ "]"
  | .dict kvs =>
    "\x7b" ++
      commaJoin ((sortByKey (canonicalJsonDict kvs)).map
        (fun kv => jsonQuote kv.1 ++ ":" ++ kv.2)) ++ "\x7d"

def canonicalJsonList : PyList → String
  | .nil => ""
  | .cons x .nil => canonicalJson x
  | .cons x (.cons y tl) => canonicalJson x ++ "," ++ canonicalJsonList (.cons y tl)

def canonicalJsonDict : PyDict → List (String × String)
  | .nil => []
  | .cons k v tl => (k, canonicalJson v) :: canonicalJsonDict tl

end

/-! `json.dumps(body, sort_keys=True, separators=(",", ":"),
ensure_ascii=False)` with **no** `default` handler, as called by
`rate_limiter._request_fingerprint`: a `uuid.UUID` or `datetime` value makes
`json.dumps` raise `TypeError`, modelled as `none`. -/

mutual

def plainJson : PyVal → Option String
  | .null => some "null"
  | .bool true => some "true"
  | .bool false => some "false"
  | .int n => some (toString n)
  | .str s => some (jsonQuote s)
  | .uuid _ => none
  | .datetime _ => none
  | .arr xs => (plainJsonList xs).map (fun body => "[" ++ body ++ "]")
  | .dict kvs =>
    (plainJsonDict kvs).map (fun rendered =>
      "\x7b" ++
        commaJoin ((sortByKey rendered).map
          (fun kv => jsonQuote kv.1 ++ ":" ++ kv.2)) ++ "\x7d")

def plainJsonList : PyList → Option String
  | .nil => some ""
  | .cons x .nil => plainJson x
  | .cons x (.cons y tl) =>
    match plainJson x, plainJsonList (.cons y tl) with
    | some sx, some rest => some (sx ++ "," ++ rest)
    | _, _ => none

def plainJsonDict : PyDict → Option (List (String × String))
  | .nil => some []
  | .cons k v tl =>
    match plainJson v, plainJsonDict tl with
    | some sv, some rest => some ((k, sv) :: rest)
    | _, _ => none

end

/-! `plainOnly`: a value contains no `uuid.UUID` / `datetime` object (the
only values on which the two `json.dumps` call styles differ). -/

mutual

def plainOnly : PyVal → Bool
  | .null => true
  | .bool _ => true
  | .int _ => true
  | .str _ => true
  | .uuid _ => false
  | .datetime _ => false
  | .arr xs => plainOnlyList xs
  | .dict kvs => plainOnlyDict kvs

def plainOnlyList : PyList → Bool
  | .nil => true
  | .cons x tl => plainOnly x && plainOnlyList tl

def plainOnlyDict : PyDict → Bool
  | .nil => true
  | .cons _ v tl => plainOnly v && plainOnlyDict tl

end

/-! ## SHA-256 (`hashlib.sha256(s.encode("utf-8")).hexdigest()`)

32-bit words are `Nat` values kept below `2 ^ 32` by explicit `% 2 ^ 32`
reductions. -/

/-- UTF-8 encoding of one character (code points, no surrogates — `Char`'s
invariant). -/
def utf8Char (c : Char) : List Nat :=
  let n := c.toNat
  if n < 0x80 then [n]
  else if n < 0x800 then [0xc0 + n / 64, 0x80 + n % 64]
  else if n < 0x10000 then
    [0xe0 + n / 4096, 0x80 + (n / 64) % 64, 0x80 + n % 64]
  else
    [0xf0 + n / 262144, 0x80 + (n / 4096) % 64, 0x80 + (n / 64) % 64, 0x80 + n % 64]

def utf8Bytes (s : String) : List Nat :=
  (s.data.map utf8Char).flatten

def w32 (n : Nat) : Nat := n % (2 ^ 32)

def rotr (k w : Nat) : Nat := w32 ((w >>> k) ||| (w <<< (32 - k)))

def sha256BigSigma0 (x : Nat) : Nat := (rotr 2 x) ^^^ (rotr 13 x) ^^^ (rotr 22 x)
def sha256BigSigma1 (x : Nat) : Nat := (rotr 6 x) ^^^ (rotr 11 x) ^^^ (rotr 25 x)
def sha256SmallSigma0 (x : Nat) : Nat := (rotr 7 x) ^^^ (rotr 18 x) ^^^ (x >>> 3)
def sha256SmallSigma1 (x : Nat) : Nat := (rotr 17 x) ^^^ (rotr 19 x) ^^^ (x >>> 10)

def sha256Ch (x y z : Nat) : Nat := (x &&& y) ^^^ ((x ^^^ 0xffffffff) &&& z)
def sha256Maj (x y z : Nat) : Nat := (x &&& y) ^^^ (x &&& z) ^^^ (y &&& z)

def hexNibble (c : Char) : Nat :=
  if c.toNat ≤ 57 then c.toNat - 48 else c.toNat - 87

/-- Split a lowercase hex string into 32-bit words, 8 digits each. -/
def hexWords8 : List Char → List Nat
  | c0 :: c1 :: c2 :: c3 :: c4 :: c5 :: c6 :: c7 :: rest =>
    let w := hexNibble c0
    let w := w * 16 + hexNibble c1
    let w := w * 16 + hexNibble c2
    let w := w * 16 + hexNibble c3
    let w := w * 16 + hexNibble c4
    let w := w * 16 + hexNibble c5
    let w := w * 16 + hexNibble c6
    let w := w * 16 + hexNibble c7
    w :: hexWords8 rest
  | _ => []

/-- The 64 SHA-256 round constants, as the concatenation of their hex
words. -/
def sha256KHex : String :=
  "428a2f9871374491b5c0fbcfe9b5dba53956c25b59f111f1923f82a4ab1c5ed5" ++
  "d807aa9812835b01243185be550c7dc372be5d7480deb1fe9bdc06a7c19bf174" ++
  "e49b69c1efbe47860fc19dc6240ca1cc2de92c6f4a7484aa5cb0a9dc76f988da" ++
  "983e5152a831c66db00327c8bf597fc7c6e00bf3d5a7914706ca635114292967" ++
  "27b70a852e1b21384d2c6dfc53380d13650a7354766a0abb81c2c92e92722c85" ++
  "a2bfe8a1a81a664bc24b8b70c76c51a3d192e819d6990624f40e3585106aa070" ++
  "19a4c1161e376c082748774c34b0bcb5391c0cb34ed8aa4a5b9cca4f682e6ff3" ++
  "748f82ee78a5636f84c878148cc7020890befffaa4506cebbef9a3f7c67178f2"

def sha256K : List Nat := hexWords8 sha256KHex.data

structure Sha256State where
  a : Nat
  b : Nat
  c : Nat
  d : Nat
  e : Nat
  f : Nat
  g : Nat
  h : Nat

/-- The initial hash value, as the concatenation of its hex words. -/
def sha256InitHex : String :=
  "6a09e667bb67ae853c6ef372a54ff53a510e527f9b05688c1f83d9ab5be0cd19"

def sha256Init : Sha256State :=
  match hexWords8 sha256InitHex.data with
  | [a, b, c, d, e, f, g, h] => ⟨a, b, c, d, e, f, g, h⟩
  | _ => ⟨0, 0, 0, 0, 0, 0, 0, 0⟩

/-- One compression round for word `w` and constant `k`. -/
def sha256Round (st : Sha256State) (wk : Nat × Nat) : Sha256State :=
  let t1 := w32 (st.h + sha256BigSigma1 st.e + sha256Ch st.e st.f st.g + wk.2 + wk.1)
  let t2 := w32 (sha256BigSigma0 st.a + sha256Maj st.a st.b st.c)
  ⟨w32 (t1 + t2), st.a, st.b, st.c, w32 (st.d + t1), st.e, st.f, st.g⟩

/-- Big-endian 32-bit word from four bytes. -/
def word32 (b0 b1 b2 b3 : Nat) : Nat := ((b0 * 256 + b1) * 256 + b2) * 256 + b3

/-- The first 16 schedule words of one 64-byte block. -/
def blockWords : List Nat → List Nat
  | b0 :: b1 :: b2 :: b3 :: rest => word32 b0 b1 b2 b3 :: blockWords rest
  | _ => []

/-- Extend the 16 block words to the 64 schedule words: repeatedly append
`σ1(w[t-2]) + w[t-7] + σ0(w[t-15]) + w[t-16]  (mod 2^32)`. -/
def sha256Extend : Nat → List Nat → List Nat
  | 0, ws => ws
  | n + 1, ws =>
    let len := ws.length
    let next := w32 (sha256SmallSigma1 (ws.getD (len - 2) 0) + ws.getD (len - 7) 0 +
      sha256SmallSigma0 (ws.getD (len - 15) 0) + ws.getD (len - 16) 0)
    sha256Extend n (ws ++ [next])

def sha256AddState (x y : Sha256State) : Sha256State :=
  ⟨w32 (x.a + y.a), w32 (x.b + y.b), w32 (x.c + y.c), w32 (x.d + y.d),
   w32 (x.e + y.e), w32 (x.f + y.f), w32 (x.g + y.g), w32 (x.h + y.h)⟩

/-- Compress one 64-byte block into the running state. -/
def sha256Compress (st : Sha256State) (block : List Nat) : Sha256State :=
  let ws := sha256Extend 48 (blockWords block)
  sha256AddState st ((ws.zip sha256K).foldl sha256Round st)

/-- SHA-256 padding: `0x80`, zeros to 56 mod 64, 8-byte big-endian bit length. -/
def sha256Pad (msg : List Nat) : List Nat :=
  let len := msg.length
  let zeros := (64 - ((len + 9) % 64)) % 64
  let bits := len * 8
  msg ++ [0x80] ++ List.replicate zeros 0 ++
    [(bits >>> 56) % 256, (bits >>> 48) % 256, (bits >>> 40) % 256,
     (bits >>> 32) % 256, (bits >>> 24) % 256, (bits >>> 16) % 256,
     (bits >>> 8) % 256, bits % 256]

/-- Split the padded message into 64-byte blocks (fuel-driven, structurally
recursive so the kernel can evaluate it). -/
def sha256BlocksGo : Nat → List Nat → List (List Nat)
  | 0, _ => []
  | _, [] => []
  | fuel + 1, l => l.take 64 :: sha256BlocksGo fuel (l.drop 64)

def sha256Blocks (l : List Nat) : List (List Nat) := sha256BlocksGo (l.length) l

def word32Hex (w : Nat) : String :=
  String.mk [hexChar ((w >>> 28) % 16), hexChar ((w >>> 24) % 16),
    hexChar ((w >>> 20) % 16), hexChar ((w >>> 16) % 16),
    hexChar ((w >>> 12) % 16), hexChar ((w >>> 8) % 16),
    hexChar ((w >>> 4) % 16), hexChar (w % 16)]

/-- Model of `hashlib.sha256(s.encode("utf-8")).hexdigest()`. -/
def sha256Hex (s : String) : String :=
  let final := (sha256Blocks (sha256Pad (utf8Bytes s))).foldl sha256Compress sha256Init
  word32Hex final.a ++ word32Hex final.b ++ word32Hex final.c ++ word32Hex final.d ++
    word32Hex final.e ++ word32Hex final.f ++ word32Hex final.g ++ word32Hex final.h

/-! ## Request / response model (`models.py`)

`request_id` is a `uuid.UUID`; everywhere the code uses it (`str(...)`,
f-strings, Redis keys) it appears as its canonical string, so it is modelled
as that string.  `subject.patient_id` is modelled as a `String` in which `""`
stands for any falsy value (`""` or a missing/`None` attribute — the two are
indistinguishable to `apply_rules_v0`, which tests `not patient_id`). -/

inductive Decision where
  | ALLOW | DENY | NEEDS_APPROVAL
deriving DecidableEq, Repr

def Decision.str : Decision → String
  | .ALLOW => "ALLOW"
  | .DENY => "DENY"
  | .NEEDS_APPROVAL => "NEEDS_APPROVAL"

inductive Mode where
  | ALLOW | STEP_UP | READ_ONLY | KILL_SWITCH
deriving DecidableEq, Repr

def Mode.str : Mode → String
  | .ALLOW => "ALLOW"
  | .STEP_UP => "STEP_UP"
  | .READ_ONLY => "READ_ONLY"
  | .KILL_SWITCH => "KILL_SWITCH"

inductive Role where
  | receptionist | nurse | doctor | billing | custodian | system
deriving DecidableEq, Repr

def Role.str : Role → String
  | .receptionist => "receptionist"
  | .nurse => "nurse"
  | .doctor => "doctor"
  | .billing => "billing"
  | .custodian => "custodian"
  | .system => "system"

inductive Tool where
  | create_appointment | cancel_appointment | list_appointments
  | summary_history | send_sms | generate_invoice
deriving DecidableEq, Repr

def Tool.str : Tool → String
  | .create_appointment => "cliniccloud.create_appointment"
  | .cancel_appointment => "cliniccloud.cancel_appointment"
  | .list_appointments => "cliniccloud.list_appointments"
  | .summary_history => "cliniccloud.summary_history"
  | .send_sms => "twilio.send_sms"
  | .generate_invoice => "stripe.generate_invoice"

/-- Model of `rules.WRITE_TOOLS`. -/
def WRITE_TOOLS : List Tool :=
  [.create_appointment, .cancel_appointment, .send_sms, .generate_invoice]

/-- Model of `rules.is_write_tool`. -/
def is_write_tool (t : Tool) : Bool := WRITE_TOOLS.contains t

/-- Model of `rules.READ_ONLY_ALLOWED` (a one-entry dict). -/
def READ_ONLY_ALLOWED (t : Tool) : Option (List String) :=
  match t with
  | .list_appointments => some ["slots_aggregated"]
  | _ => none

structure SubjectV1 where
  patient_id : String
  extra : PyDict := .nil

structure ContextV1 where
  tenant_id : String
  timestamp : Option String := none
  source : Option String := none
  session_id : Option String := none
  ip : Option String := none
  extra : PyDict := .nil

structure VerifyRequestV1 where
  request_id : String
  tool : Tool
  mode : Mode
  role : Role
  subject : SubjectV1
  args : PyDict := .nil
  context : ContextV1

structure VerifyResponseV1 where
  decision : Decision
  violations : List String := []
  allowed_outputs : List String := []
  reason : Option String := none
deriving DecidableEq, Repr

/-- Python `str(x)` on an optional string (`str(None) = "None"`), used by the
`f"{res.reason} | audit_append_failed"` formattings in `main.py`. -/
def pyStrOpt : Option String → String
  | none => "None"
  | some s => s

def pyOptStr : Option String → PyVal
  | none => .null
  | some s => .str s

def pyOptDatetime : Option String → PyVal
  | none => .null
  | some iso => .datetime iso

def pyAppend : PyDict → PyDict → PyDict
  | .nil, d => d
  | .cons k v tl, d => .cons k v (pyAppend tl d)

/-- Model of `req.model_dump()` (pydantic python mode): nested dicts in which
`request_id` is still a `uuid.UUID` object and `context.timestamp` is still a
`datetime` object. -/
def modelDump (req : VerifyRequestV1) : PyDict :=
  .cons "request_id" (.uuid req.request_id) <|
  .cons "tool" (.str req.tool.str) <|
  .cons "mode" (.str req.mode.str) <|
  .cons "role" (.str req.role.str) <|
  .cons "subject" (.dict (.cons "patient_id" (.str req.subject.patient_id) req.subject.extra)) <|
  .cons "args" (.dict req.args) <|
  .cons "context" (.dict
    (.cons "tenant_id" (.str req.context.tenant_id) <|
     .cons "timestamp" (pyOptDatetime req.context.timestamp) <|
     .cons "source" (pyOptStr req.context.source) <|
     .cons "session_id" (pyOptStr req.context.session_id) <|
     .cons "ip" (pyOptStr req.context.ip) <| req.context.extra)) .nil

/-! ## Idempotency store and rate limiter (`rate_limiter.py`)

The Redis keyspace is an association list; the atomic Lua scripts are single
steps on it.  A raised exception of a Redis round-trip is modelled by a
boolean failure flag of the call.  TTLs are recorded but time is not
advanced: a stored entry lives for the whole modelled run. -/

def alookup {α : Type} (k : String) : List (String × α) → Option α
  | [] => none
  | (k', v) :: rest => if k' = k then some v else alookup k rest

def ainsert {α : Type} (k : String) (v : α) : List (String × α) → List (String × α)
  | [] => [(k, v)]
  | (k', v') :: rest => if k' = k then (k, v) :: rest else (k', v') :: ainsert k v rest

/-- Model of `rate_limiter.RateLimitResult`. -/
structure RateLimitResult where
  allowed : Bool
  count : Nat
  reason : String
deriving DecidableEq, Repr

/-- The stored JSON blob `{"fp": ..., "decision": ...}` of one idempotency
key, plus its remaining TTL.  The decision round-trips through JSON
unchanged, so it is kept structured. -/
structure ReplayEntry where
  fp : String
  decision : Option VerifyResponseV1
  ttl : Nat
deriving DecidableEq, Repr

/-- Model of `rate_limiter.ReplayCheckResult`. -/
structure ReplayCheckResult where
  is_new : Bool
  cached_decision : Option VerifyResponseV1 := none
  fingerprint_match : Bool := true
deriving DecidableEq, Repr

abbrev ReplayStore := List (String × ReplayEntry)

abbrev SmsCounters := List (String × (Nat × Nat))

/-- Strip the `request_id` key (`{k: v for k, v in request_body.items() if
k != "request_id"}`). -/
def removeKey (k : String) : PyDict → PyDict
  | .nil => .nil
  | .cons k' v tl => if k' = k then removeKey k tl else .cons k' v (removeKey k tl)

/-- Model of `rate_limiter._request_fingerprint`: SHA-256 of `json.dumps(body,
sort_keys=True, separators=(",", ":"), ensure_ascii=False)` — **without** a
`default` handler, so a `uuid.UUID` / `datetime` value raises (`none`). -/
def _request_fingerprint (body : PyDict) : Option String :=
  (plainJson (.dict (removeKey "request_id" body))).map sha256Hex

/-- Model of `RateLimiter.check`: the `LUA_INCR_EXPIRE` script — atomic `INCR`, with
`EXPIRE window_s` when the incremented counter is 1 (fresh key). -/
def rlCheck (redisFails : Bool) (counters : SmsCounters) (key : String)
    (limit window_s : Nat) : Except Unit (RateLimitResult × SmsCounters) :=
  if redisFails then .error () else
  let prev := ((alookup key counters).map Prod.fst).getD 0
  let current := prev + 1
  let ttl := if current = 1 then window_s else ((alookup key counters).map Prod.snd).getD 0
  let counters' := ainsert key (current, ttl) counters
  if current ≤ limit then .ok (⟨true, current, "ok"⟩, counters')
  else .ok (⟨false, current, "limit_exceeded"⟩, counters')

/-- Model of `RateLimiter.check_replay`: compute the fingerprint (which can raise),
then run the `LUA_REPLAY_CHECK` script — atomic get-or-claim of
`casf:req:{request_id}` with value `{"fp": fp, "decision": null}` and the
given TTL. -/
def check_replay (redisFails : Bool) (store : ReplayStore) (request_id : String)
    (request_body : PyDict) (ttl_s : Nat) : Except Unit (ReplayCheckResult × ReplayStore) :=
  match _request_fingerprint request_body with
  | none => .error ()
  | some fp =>
    if redisFails then .error () else
    let key := "casf:req:" ++ request_id
    match alookup key store with
    | none => .ok (⟨true, none, true⟩, ainsert key ⟨fp, none, ttl_s⟩ store)
    | some stored =>
      if stored.fp ≠ fp then .ok (⟨false, none, false⟩, store)
      else .ok (⟨false, stored.decision, true⟩, store)

/-- Model of `RateLimiter.store_decision`: recompute the fingerprint (which can
raise), then `SET key value XX KEEPTTL` — update only an existing key,
preserving its TTL. -/
def store_decision (redisFails : Bool) (store : ReplayStore) (request_id : String)
    (request_body : PyDict) (decision : VerifyResponseV1) : Except Unit ReplayStore :=
  match _request_fingerprint request_body with
  | none => .error ()
  | some fp =>
    if redisFails then .error () else
    let key := "casf:req:" ++ request_id
    match alookup key store with
    | none => .ok store
    | some old => .ok (ainsert key ⟨fp, some decision, old.ttl⟩ store)

/-! ## Rule engine (`rules.py:apply_rules_v0`)

`settings.py` defaults: `SMS_RATE_LIMIT = 1`, `SMS_RATE_WINDOW_S = 3600`,
`SMS_RATE_TENANT_OVERRIDES = {}`.  The `rl` argument is `none` for
`rl=None`; `some fails` is a limiter whose Redis call raises iff `fails`. -/

structure TenantCfg where
  limit : Option Nat := none
  window_s : Option Nat := none
deriving DecidableEq, Repr

structure Settings where
  smsRateLimit : Nat := 1
  smsRateWindowS : Nat := 3600
  smsTenantOverrides : List (String × TenantCfg) := []
deriving Repr

def defaultSettings : Settings := {}

def apply_rules_v0 (s : Settings) (rl : Option Bool) (counters : SmsCounters)
    (req : VerifyRequestV1) : VerifyResponseV1 × SmsCounters :=
  let patient_id := req.subject.patient_id
  if patient_id = "" then
    (⟨.DENY, ["BadRequest_MissingPatientId"], [], some "subject.patient_id required"⟩, counters)
  else if (req.mode = .READ_ONLY ∨ req.mode = .KILL_SWITCH) ∧ is_write_tool req.tool then
    (⟨.DENY, ["Inv_NoWriteSafe"], [], some ("No writes allowed in " ++ req.mode.str)⟩, counters)
  else if req.mode = .READ_ONLY ∧ (READ_ONLY_ALLOWED req.tool).isSome then
    (⟨.ALLOW, [], (READ_ONLY_ALLOWED req.tool).getD [], some "OK (READ_ONLY degraded output)"⟩,
      counters)
  else if req.tool = .send_sms then
    match rl with
    | none =>
      (⟨.DENY, ["FAIL_CLOSED", "Inv_NoSmsBurst"], [], some "Rate limiter not available"⟩, counters)
    | some rlFails =>
      let tenant_id := req.context.tenant_id
      let tenant_cfg := (alookup tenant_id s.smsTenantOverrides).getD {}
      let limit := tenant_cfg.limit.getD s.smsRateLimit
      let window_s := tenant_cfg.window_s.getD s.smsRateWindowS
      let key := "sms:" ++ tenant_id ++ ":" ++ patient_id
      match rlCheck rlFails counters key limit window_s with
      | .error _ =>
        (⟨.DENY, ["FAIL_CLOSED", "Inv_NoSmsBurst"], [],
          some "Rate limiter unavailable (fail-closed)"⟩, counters)
      | .ok (res_rl, counters') =>
        if !res_rl.allowed then
          (⟨.DENY, ["Inv_NoSmsBurst"], [], some "SMS rate limit exceeded"⟩, counters')
        else (⟨.ALLOW, [], [], some "OK"⟩, counters')
  else (⟨.ALLOW, [], [], some "OK"⟩, counters)

/-! ## Audit hash chain (`audit.py`)

`models.AuditEventV1` with `request_id` / `event_id` as their canonical
strings and `decision` as the literal string (`compute_hash` applies `str`
to every part anyway). -/

structure AuditEventV1 where
  event_id : String
  request_id : String
  ts : String
  actor : String
  action : String
  decision : String
  payload : PyVal
  prev_hash : String
  hash : String

/-- Model of `audit.compute_hash`: `sha256(request_id + event_id + ts + actor +
action + decision + canonical_json(payload) + prev_hash)`, all parts as
plain strings, concatenated without separators. -/
def compute_hash (request_id event_id ts actor action decision : String)
    (payload : PyVal) (prev_hash : String) : String :=
  sha256Hex (request_id ++ event_id ++ ts ++ actor ++ action ++ decision ++
    canonicalJson payload ++ prev_hash)

/-- The recomputed hash of an event from its own fields (the call inside
`verify_chain`, with `prev_hash=evt.prev_hash`). -/
def eventHash (e : AuditEventV1) : String :=
  compute_hash e.request_id e.event_id e.ts e.actor e.action e.decision e.payload e.prev_hash

/-- The loop of `audit.verify_chain`, carrying the expected `prev_hash`
(`events[i-1].hash`, or `""` at the start) and the running index. -/
def verifyChainGo : List AuditEventV1 → String → Nat → Bool × Option Nat
  | [], _, _ => (true, none)
  | e :: rest, prev, i =>
    if e.prev_hash ≠ prev then (false, some i)
    else if e.hash ≠ eventHash e then (false, some i)
    else verifyChainGo rest e.hash (i + 1)

/-- Model of `audit.verify_chain`: walk events (given in ascending durable-id order)
and return `(True, None)` or `(False, first_bad_index)`. -/
def verify_chain (events : List AuditEventV1) : Bool × Option Nat :=
  verifyChainGo events "" 0

/-! Index-wise formulation of chain validity, used to state the claims about
`verify_chain`. -/

def nth {α : Type} : List α → Nat → Option α
  | [], _ => none
  | x :: _, 0 => some x
  | _ :: rest, n + 1 => nth rest n

def setNth {α : Type} : List α → Nat → α → List α
  | [], _, _ => []
  | _ :: rest, 0, x => x :: rest
  | e :: rest, n + 1, x => e :: setNth rest n x

/-- The expected `prev_hash` at index `i` when the hash of the event before
the list is `prev0` (`""` for the full chain): the previous event's `hash`. -/
def expectedPrev (events : List AuditEventV1) (prev0 : String) (i : Nat) : String :=
  match i with
  | 0 => prev0
  | j + 1 => ((nth events j).map AuditEventV1.hash).getD ""

/-- Index `i` violates the chain conditions: its `prev_hash` is not the
previous event's `hash`, or its stored `hash` is not the recomputation from
its own fields. -/
def badAtFrom (events : List AuditEventV1) (prev0 : String) (i : Nat) : Bool :=
  match nth events i with
  | none => false
  | some e => (e.prev_hash ≠ expectedPrev events prev0 i : Bool) || (e.hash ≠ eventHash e : Bool)

def badAt (events : List AuditEventV1) (i : Nat) : Bool := badAtFrom events "" i

/-! ## Decision pipeline (`main.py:_verify_core`)

External effects are modelled explicitly:
* `Env` carries the configuration (`settings.py` values, the
  `CASF_DISABLE_AUDIT` flag) and one failure flag per external call site —
  `true` means that call raises whenever it is made;
* `St` carries the Redis keyspace (idempotency entries and SMS counters),
  the audit table as the list of appended rows, and a counter of
  `store_decision` invocations (counted even when the suppressed call then
  raises).

An appended audit row records the fields of the event that the claims speak
about; `ts` / `event_id` (fresh randomness) and the request/response payload
are not recorded here — the hash-chain content itself is verified through
the `audit.py` embedding above.  Metrics calls are pure counters and are
omitted.  `Out.badRequest` models `HTTPException(status_code=400,
detail=res.reason)`; every other outcome is an HTTP 200 carrying a decision
(the audit-failure branch returns `JSONResponse(status_code=200,
content=res.model_dump())`, observationally a 200 with that body). -/

structure OpaDecision where
  allow : Bool
  violations : List String
deriving DecidableEq, Repr

structure AuditRow where
  request_id : String
  actor : String
  action : String
  decision : Decision
deriving DecidableEq, Repr

structure Env where
  antiReplayEnabled : Bool
  antiReplayTtlS : Nat := 86400
  disableAudit : Bool
  replayRedisFails : Bool := false
  storeRedisFails : Bool := false
  limiterRedisFails : Bool := false
  auditFails : Bool := false
  opaResult : Except Unit OpaDecision
  settings : Settings := {}

structure St where
  replay : ReplayStore := []
  counters : SmsCounters := []
  audit : List AuditRow := []
  storeDecisionCalls : Nat := 0

inductive Out where
  | ok (r : VerifyResponseV1)
  | badRequest (detail : Option String)
deriving DecidableEq, Repr

/-- Model of `append_audit_event` when it succeeds: the appended row
(`actor = "role:" + role`, `action = action_override or req.tool`). -/
def appendAudit (st : St) (req : VerifyRequestV1) (res : VerifyResponseV1)
    (actionOverride : Option String) : St :=
  { st with audit := st.audit ++
      [⟨req.request_id, "role:" ++ req.role.str, actionOverride.getD req.tool.str, res.decision⟩] }

/-- The best-effort `rl.store_decision(...)` inside
`contextlib.suppress(Exception)`, guarded by `ANTI_REPLAY_ENABLED`. -/
def bestEffortStore (env : Env) (st : St) (req : VerifyRequestV1)
    (res : VerifyResponseV1) : St :=
  if env.antiReplayEnabled then
    let st := { st with storeDecisionCalls := st.storeDecisionCalls + 1 }
    match store_decision env.storeRedisFails st.replay req.request_id (modelDump req) res with
    | .error _ => st
    | .ok replay' => { st with replay := replay' }
  else st

/-- The best-effort `append_audit_event(..., action_override=
"REPLAY_DETECTED")` inside `contextlib.suppress(Exception)`, skipped when
`CASF_DISABLE_AUDIT == "1"`. -/
def replayAuditBestEffort (env : Env) (st : St) (req : VerifyRequestV1)
    (cached : VerifyResponseV1) : St :=
  if env.disableAudit then st
  else if env.auditFails then st
  else appendAudit st req cached (some "REPLAY_DETECTED")

def replayUnavailableDeny : VerifyResponseV1 :=
  ⟨.DENY, ["FAIL_CLOSED", "Inv_ReplayCheckUnavailable"], [],
    some "Replay check unavailable (fail-closed on write)"⟩

def mismatchDeny (request_id : String) : VerifyResponseV1 :=
  ⟨.DENY, ["Inv_ReplayPayloadMismatch"], [],
    some ("request_id " ++ request_id ++ " already used with different payload")⟩

def concurrentDeny (request_id : String) : VerifyResponseV1 :=
  ⟨.DENY, ["Inv_ReplayConcurrent"], [],
    some ("request_id " ++ request_id ++ " is being processed concurrently")⟩

def opaUnavailableDeny : VerifyResponseV1 :=
  ⟨.DENY, ["FAIL_CLOSED", "OPA_Unavailable"], [], some "OPA unavailable (fail-closed on write)"⟩

/-- Model of `list(dict.fromkeys(xs))`: deduplicate keeping first occurrences in
insertion order. -/
def dedupFirstGo (seen : List String) : List String → List String
  | [] => []
  | x :: rest =>
    if seen.contains x then dedupFirstGo seen rest
    else x :: dedupFirstGo (x :: seen) rest

def dedupFirst (xs : List String) : List String := dedupFirstGo [] xs

/-- The OPA deny response: `list(dict.fromkeys(od.violations or
["OPA_Deny"]))`. -/
def opaDenyResp (od : OpaDecision) : VerifyResponseV1 :=
  ⟨.DENY, dedupFirst (if od.violations.isEmpty then ["OPA_Deny"] else od.violations), [],
    some "Denied by OPA policy"⟩

/-- Stage D and E of `_verify_core` (from the `CASF_DISABLE_AUDIT` early
return to the end), for the preliminary result `res`. -/
def stageDE (env : Env) (st : St) (req : VerifyRequestV1) (res : VerifyResponseV1) : Out × St :=
  if env.disableAudit then
    (.ok res, bestEffortStore env st req res)
  else if env.auditFails then
    (.ok { res with reason := some (pyStrOpt res.reason ++ " | audit_append_failed") }, st)
  else
    (.ok res, bestEffortStore env (appendAudit st req res none) req res)

/-- Stages B–E of `_verify_core` (from `apply_rules_v0` to the end). -/
def stagesBCDE (env : Env) (st : St) (req : VerifyRequestV1) : Out × St :=
  let pr := apply_rules_v0 env.settings (some env.limiterRedisFails) st.counters req
  let res := pr.1
  let st := { st with counters := pr.2 }
  if res.violations = ["BadRequest_MissingPatientId"] then
    (.badRequest res.reason, st)
  else if res.violations.contains "FAIL_CLOSED" then
    if env.disableAudit then (.ok res, st)
    else if env.auditFails then
      (.ok { res with reason := some (pyStrOpt res.reason ++ " | audit_append_failed") }, st)
    else (.ok res, appendAudit st req res none)
  else
    match env.opaResult with
    | .error _ =>
      if is_write_tool req.tool then (.ok opaUnavailableDeny, st)
      else stageDE env st req res
    | .ok od =>
      if !od.allow then (.ok (opaDenyResp od), st)
      else stageDE env st req res

/-- Model of `main._verify_core`: the full pipeline on one request. -/
def verifyCore (env : Env) (st : St) (req : VerifyRequestV1) : Out × St :=
  if env.antiReplayEnabled then
    match check_replay env.replayRedisFails st.replay req.request_id (modelDump req)
        env.antiReplayTtlS with
    | .error _ =>
      if is_write_tool req.tool then (.ok replayUnavailableDeny, st)
      else stagesBCDE env st req
    | .ok (rr, replay') =>
      let st' := { st with replay := replay' }
      if rr.is_new then stagesBCDE env st' req
      else if !rr.fingerprint_match then (.ok (mismatchDeny req.request_id), st')
      else
        match rr.cached_decision with
        | some cached => (.ok cached, replayAuditBestEffort env st' req cached)
        | none => (.ok (concurrentDeny req.request_id), st')
  else stagesBCDE env st req

/-! ## Concrete fixtures used by the claim witnesses -/

/-! Concrete two-event chain, with the stored hashes computed by the
`compute_hash` contract (cross-checked against `hashlib`). -/

def chainEvent0 : AuditEventV1 :=
  { event_id := "e1", request_id := "r1", ts := "t1", actor := "role:doctor",
    action := "cliniccloud.summary_history", decision := "ALLOW",
    payload := .dict (.cons "k" (.str "v") .nil), prev_hash := "",
    hash := "d80c188250c0006fc1c95fff964051741fdbca4bc139261fe9d24d527510c689" }

def chainEvent1 : AuditEventV1 :=
  { event_id := "e2", request_id := "r2", ts := "t2", actor := "role:nurse",
    action := "twilio.send_sms", decision := "DENY",
    payload := .dict .nil,
    prev_hash := "d80c188250c0006fc1c95fff964051741fdbca4bc139261fe9d24d527510c689",
    hash := "b157c130736334daea314966799e84e15473e8c45d21734bb94151e160f68348" }

def chainFixture : List AuditEventV1 := [chainEvent0, chainEvent1]

/-! ## Concrete request fixtures -/

def reqRead : VerifyRequestV1 :=
  { request_id := "11111111-1111-1111-1111-111111111111",
    tool := .list_appointments, mode := .READ_ONLY, role := .receptionist,
    subject := { patient_id := "p1" }, args := .nil,
    context := { tenant_id := "t-demo" } }

def reqReadOtherId : VerifyRequestV1 :=
  { reqRead with request_id := "22222222-2222-2222-2222-222222222222" }

def reqWrite : VerifyRequestV1 :=
  { reqRead with tool := .create_appointment, mode := .ALLOW }

def reqSms : VerifyRequestV1 :=
  { reqRead with tool := .send_sms, mode := .ALLOW, role := .nurse }

def reqNoPatient : VerifyRequestV1 :=
  { reqRead with subject := { patient_id := "" } }

def ctxWithTs : ContextV1 :=
  { tenant_id := "t-demo", timestamp := some "2025-01-01T00:00:00+00:00" }

/-- A request whose `context.timestamp` is set: after `model_dump()` the body
holds a `datetime` object, on which `_request_fingerprint`'s plain
`json.dumps` raises. -/
def reqWithTimestamp : VerifyRequestV1 :=
  { reqRead with context := ctxWithTs }

/-- A plain environment: anti-replay off, audit enabled and healthy, OPA
answering allow with no violations. -/
def envPlain : Env :=
  { antiReplayEnabled := false, disableAudit := false, opaResult := .ok ⟨true, []⟩ }

def envAuditDown : Env :=
  { antiReplayEnabled := false, disableAudit := false, auditFails := true,
    opaResult := .ok ⟨true, []⟩ }

/-- The fingerprint of `reqRead`'s body (checked by kernel evaluation in the
C2 witness). -/
def fpReqRead : String := "0f20476fbd04362e4dbb01b679a9239481deda77298f6c6d4060051c650586fd"

def replayKeyReqRead : String := "casf:req:11111111-1111-1111-1111-111111111111"

def cachedAllow : VerifyResponseV1 :=
  ⟨.ALLOW, [], ["slots_aggregated"], some "OK (READ_ONLY degraded output)"⟩

def envReplayOn : Env :=
  { antiReplayEnabled := true, disableAudit := false, opaResult := .ok ⟨true, []⟩ }

def stMismatch : St := { replay := [(replayKeyReqRead, ⟨"not-the-fingerprint", none, 86400⟩)] }

def stCached : St := { replay := [(replayKeyReqRead, ⟨fpReqRead, some cachedAllow, 86400⟩)] }

def stPending : St := { replay := [(replayKeyReqRead, ⟨fpReqRead, none, 86400⟩)] }

def envRedisDown : Env :=
  { antiReplayEnabled := true, disableAudit := false, replayRedisFails := true,
    opaResult := .ok ⟨true, []⟩ }

def envOpaDown : Env :=
  { antiReplayEnabled := false, disableAudit := false, opaResult := .error () }

def envOpaDenyDup : Env :=
  { antiReplayEnabled := false, disableAudit := false,
    opaResult := .ok ⟨false, ["Dup", "Other", "Dup"]⟩ }

def envOpaDenyEmpty : Env :=
  { antiReplayEnabled := false, disableAudit := false, opaResult := .ok ⟨false, []⟩ }

def envReplayOpaDeny : Env :=
  { antiReplayEnabled := true, disableAudit := true, opaResult := .ok ⟨false, []⟩ }

/-! ## Lemmas: chain verifier characterization -/

theorem nth_setNth_eq {α : Type} :
    ∀ (l : List α) (i : Nat) (x e : α), nth l i = some e → nth (setNth l i x) i = some x := by
  intro l
  induction l with
  | nil => intro i x e h; simp [nth] at h
  | cons a rest ih =>
    intro i x e h
    cases i with
    | zero => simp [nth, setNth]
    | succ j => simpa [nth, setNth] using ih j x e (by simpa [nth] using h)

theorem nth_setNth_ne {α : Type} :
    ∀ (l : List α) (i j : Nat) (x : α), i ≠ j → nth (setNth l i x) j = nth l j := by
  intro l
  induction l with
  | nil => intro i j x _; cases i <;> simp [setNth]
  | cons a rest ih =>
    intro i j x hij
    cases i with
    | zero =>
      cases j with
      | zero => exact absurd rfl hij
      | succ j' => simp [nth, setNth]
    | succ i' =>
      cases j with
      | zero => simp [nth, setNth]
      | succ j' =>
        simpa [nth, setNth] using ih i' j' x (fun h => hij (by rw [h]))

theorem badAtFrom_cons_zero (e : AuditEventV1) (rest : List AuditEventV1) (prev0 : String) :
    badAtFrom (e :: rest) prev0 0 =
      ((e.prev_hash ≠ prev0 : Bool) || (e.hash ≠ eventHash e : Bool)) := by
  simp [badAtFrom, expectedPrev, nth]

theorem badAtFrom_cons_succ (e : AuditEventV1) (rest : List AuditEventV1) (prev0 : String)
    (k : Nat) : badAtFrom (e :: rest) prev0 (k + 1) = badAtFrom rest e.hash k := by
  cases k with
  | zero => cases h : nth rest 0 <;> simp [badAtFrom, expectedPrev, nth, h]
  | succ j => cases h : nth rest (j + 1) <;> simp [badAtFrom, expectedPrev, nth, h]

theorem badAtFrom_nil (prev0 : String) (k : Nat) : badAtFrom ([] : List AuditEventV1) prev0 k = false := by
  simp [badAtFrom, nth]

theorem verifyChainGo_true_iff :
    ∀ (events : List AuditEventV1) (prev0 : String) (i0 : Nat),
      verifyChainGo events prev0 i0 = (true, none) ↔ ∀ k, badAtFrom events prev0 k = false := by
  intro events
  induction events with
  | nil =>
    intro prev0 i0
    constructor
    · intro _ k; exact badAtFrom_nil prev0 k
    · intro _; rfl
  | cons e rest ih =>
    intro prev0 i0
    by_cases h1 : e.prev_hash = prev0
    · by_cases h2 : e.hash = eventHash e
      · rw [show verifyChainGo (e :: rest) prev0 i0 = verifyChainGo rest e.hash (i0 + 1) by
          simp [verifyChainGo, h1, h2]]
        rw [ih e.hash (i0 + 1)]
        constructor
        · intro hall k
          cases k with
          | zero => simp [badAtFrom_cons_zero, h1, h2]
          | succ j => rw [badAtFrom_cons_succ]; exact hall j
        · intro hall k
          have := hall (k + 1)
          rwa [badAtFrom_cons_succ] at this
      · constructor
        · intro h; simp [verifyChainGo, h1, h2] at h
        · intro hall
          have := hall 0
          rw [badAtFrom_cons_zero] at this
          simp [h2] at this
    · constructor
      · intro h; simp [verifyChainGo, h1] at h
      · intro hall
        have := hall 0
        rw [badAtFrom_cons_zero] at this
        simp [h1] at this

theorem verifyChainGo_firstBad :
    ∀ (events : List AuditEventV1) (prev0 : String) (i0 k : Nat),
      badAtFrom events prev0 k = true → (∀ j, j < k → badAtFrom events prev0 j = false) →
      verifyChainGo events prev0 i0 = (false, some (i0 + k)) := by
  intro events
  induction events with
  | nil => intro prev0 i0 k hbad _; rw [badAtFrom_nil] at hbad; exact absurd hbad (by simp)
  | cons e rest ih =>
    intro prev0 i0 k hbad hmin
    cases k with
    | zero =>
      rw [badAtFrom_cons_zero] at hbad
      by_cases h1 : e.prev_hash = prev0
      · simp [h1] at hbad
        simp [verifyChainGo, h1, hbad]
      · simp [verifyChainGo, h1]
    | succ j =>
      have h0 := hmin 0 (Nat.succ_pos j)
      rw [badAtFrom_cons_zero] at h0
      have h1 : e.prev_hash = prev0 := by
        by_contra hc; simp [hc] at h0
      have h2 : e.hash = eventHash e := by
        by_contra hc; simp [hc] at h0
      rw [badAtFrom_cons_succ] at hbad
      have hmin' : ∀ j', j' < j → badAtFrom rest e.hash j' = false := by
        intro j' hj'
        have := hmin (j' + 1) (Nat.succ_lt_succ hj')
        rwa [badAtFrom_cons_succ] at this
      have := ih e.hash (i0 + 1) j hbad hmin'
      rw [show verifyChainGo (e :: rest) prev0 i0 = verifyChainGo rest e.hash (i0 + 1) by
        simp [verifyChainGo, h1, h2]]
      rw [this]
      congr 2
      omega

theorem expectedPrev_setNth (events : List AuditEventV1) (prev0 : String) (i : Nat)
    (x : AuditEventV1) : expectedPrev (setNth events i x) prev0 i = expectedPrev events prev0 i := by
  cases i with
  | zero => rfl
  | succ j => simp [expectedPrev, nth_setNth_ne events (j + 1) j x (by omega)]

theorem badAtFrom_setNth_lt (events : List AuditEventV1) (prev0 : String) (i j : Nat)
    (x : AuditEventV1) (hj : j < i) :
    badAtFrom (setNth events i x) prev0 j = badAtFrom events prev0 j := by
  have hnth : nth (setNth events i x) j = nth events j :=
    nth_setNth_ne events i j x (by omega)
  have hexp : expectedPrev (setNth events i x) prev0 j = expectedPrev events prev0 j := by
    cases j with
    | zero => rfl
    | succ j' => simp [expectedPrev, nth_setNth_ne events i j' x (by omega)]
  simp [badAtFrom, hnth, hexp]

/-- Extract the two per-index facts from `badAt events i = false` at an
occupied index. -/
theorem badAt_false_elim (events : List AuditEventV1) (i : Nat) (e : AuditEventV1)
    (hnth : nth events i = some e) (h : badAt events i = false) :
    e.prev_hash = expectedPrev events "" i ∧ e.hash = eventHash e := by
  rw [badAt, badAtFrom, hnth] at h
  constructor
  · by_contra hc; simp [hc] at h
  · by_contra hc; simp [hc] at h

/-- Common step of the three tampering conclusions: if in a valid chain the
event at index `i` is replaced by an event `e'` that violates its own
prev-hash or recomputation condition, `verify_chain` rejects at exactly
index `i`. -/
theorem verify_chain_tamper (events : List AuditEventV1) (i : Nat) (e' : AuditEventV1)
    (hok : ∀ k, badAt events k = false)
    (hnth' : nth (setNth events i e') i = some e')
    (hbad : ((e'.prev_hash ≠ expectedPrev (setNth events i e') "" i : Bool) ||
      (e'.hash ≠ eventHash e' : Bool)) = true) :
    verify_chain (setNth events i e') = (false, some i) := by
  have hbadAt : badAt (setNth events i e') i = true := by
    rw [badAt, badAtFrom, hnth']
    exact hbad
  have hmin : ∀ j, j < i → badAt (setNth events i e') j = false := by
    intro j hj
    rw [badAt, badAtFrom_setNth_lt events "" i j e' hj]
    exact hok j
  have := verifyChainGo_firstBad (setNth events i e') "" 0 i hbadAt hmin
  simpa [verify_chain] using this

/-- Claim C5. `verify_chain`, given the list of events in ascending durable-id
order, (1) returns `(True, None)` iff every index satisfies both chain
conditions — its `prev_hash` equals the previous event's `hash` (`""` at
index 0: `expectedPrev`) and its stored `hash` equals the recomputation
`compute_hash` = SHA256_HEX(request_id ∥ event_id ∥ ts ∥ actor ∥ action ∥
decision ∥ canonical_json(payload) ∥ prev_hash) (`badAt` bundles the two
conditions; it is `false` at every index beyond the list); (2) at the first
index violating either condition it returns `(False, i)`; and tampering with
any single event of a valid chain — (3) replacing its `hash` by any
different string (in particular any single-byte flip), (4) replacing its
`prev_hash` by any different string, or (5) replacing its `payload` so that
the recomputed hash no longer matches the stored one (any byte flip, short
of producing a SHA-256 collision of the hash preimages, does) — makes it
return `(False, i)` at the tampered index. -/
theorem C5_verify_chain_characterization (events : List AuditEventV1) :
    (verify_chain events = (true, none) ↔ ∀ k, badAt events k = false)
    ∧ (∀ k, badAt events k = true → (∀ j, j < k → badAt events j = false) →
        verify_chain events = (false, some k))
    ∧ (∀ i e h', nth events i = some e → (∀ k, badAt events k = false) → h' ≠ e.hash →
        verify_chain (setNth events i { e with hash := h' }) = (false, some i))
    ∧ (∀ i e p', nth events i = some e → (∀ k, badAt events k = false) → p' ≠ e.prev_hash →
        verify_chain (setNth events i { e with prev_hash := p' }) = (false, some i))
    ∧ (∀ i e q, nth events i = some e → (∀ k, badAt events k = false) →
        eventHash { e with payload := q } ≠ e.hash →
        verify_chain (setNth events i { e with payload := q }) = (false, some i)) := by
  refine ⟨?_, ?_, ?_, ?_, ?_⟩
  · simpa [verify_chain, badAt] using verifyChainGo_true_iff events "" 0
  · intro k hbad hmin
    simpa [verify_chain] using verifyChainGo_firstBad events "" 0 k hbad hmin
  · intro i e h' hnth hok hne
    obtain ⟨hprev, hhash⟩ := badAt_false_elim events i e hnth (hok i)
    refine verify_chain_tamper events i _ hok (nth_setNth_eq events i _ e hnth) ?_
    have : eventHash { e with hash := h' } = eventHash e := rfl
    simp [this, ← hhash, hne]
  · intro i e p' hnth hok hne
    obtain ⟨hprev, hhash⟩ := badAt_false_elim events i e hnth (hok i)
    refine verify_chain_tamper events i _ hok (nth_setNth_eq events i _ e hnth) ?_
    rw [expectedPrev_setNth]
    simp [← hprev, hne]
  · intro i e q hnth hok hne
    obtain ⟨hprev, hhash⟩ := badAt_false_elim events i e hnth (hok i)
    refine verify_chain_tamper events i _ hok (nth_setNth_eq events i _ e hnth) ?_
    simp [hne.symm, ← hhash]

/-- Witness for C5: the concrete two-event chain verifies, and replacing one
byte of the middle of `chainEvent1`'s stored hash makes `verify_chain`
reject at index 1. -/
theorem C5_verify_chain_characterization_witness :
    verify_chain chainFixture = (true, none) ∧
    verify_chain (setNth chainFixture 1
      { chainEvent1 with
        hash := "b157c130736334daea314966799e84e15473e8c45d21734bb94151e160f68340" }) =
      (false, some 1) := by
  have hok : verify_chain chainFixture = (true, none) := by decide
  have hall := (C5_verify_chain_characterization chainFixture).1.mp hok
  refine ⟨hok, ?_⟩
  exact (C5_verify_chain_characterization chainFixture).2.2.1 1 chainEvent1
    "b157c130736334daea314966799e84e15473e8c45d21734bb94151e160f68340"
    rfl hall (by decide)

/-! ## Lemmas: the two `json.dumps` styles agree on plain JSON values -/

mutual

theorem plainJson_eq_canonicalJson :
    ∀ (v : PyVal), plainOnly v = true → plainJson v = some (canonicalJson v)
  | .null, _ => rfl
  | .bool true, _ => rfl
  | .bool false, _ => rfl
  | .int _, _ => rfl
  | .str _, _ => rfl
  | .uuid _, h => by simp [plainOnly] at h
  | .datetime _, h => by simp [plainOnly] at h
  | .arr xs, h => by
    have hx := plainJsonList_eq_canonicalJsonList xs (by simpa [plainOnly] using h)
    simp [plainJson, canonicalJson, hx]
  | .dict kvs, h => by
    have hx := plainJsonDict_eq_canonicalJsonDict kvs (by simpa [plainOnly] using h)
    simp [plainJson, canonicalJson, hx]

theorem plainJsonList_eq_canonicalJsonList :
    ∀ (xs : PyList), plainOnlyList xs = true → plainJsonList xs = some (canonicalJsonList xs)
  | .nil, _ => rfl
  | .cons x .nil, h => by
    have hx := plainJson_eq_canonicalJson x (by simpa [plainOnlyList, plainOnly] using h)
    simp [plainJsonList, canonicalJsonList, hx]
  | .cons x (.cons y tl), h => by
    rw [plainOnlyList] at h
    have h1 := plainJson_eq_canonicalJson x (by exact (Bool.and_eq_true_iff.mp h).1)
    have h2 := plainJsonList_eq_canonicalJsonList (.cons y tl) (Bool.and_eq_true_iff.mp h).2
    simp [plainJsonList, canonicalJsonList, h1, h2]

theorem plainJsonDict_eq_canonicalJsonDict :
    ∀ (kvs : PyDict), plainOnlyDict kvs = true →
      plainJsonDict kvs = some (canonicalJsonDict kvs)
  | .nil, _ => rfl
  | .cons k v tl, h => by
    rw [plainOnlyDict] at h
    have h1 := plainJson_eq_canonicalJson v (Bool.and_eq_true_iff.mp h).1
    have h2 := plainJsonDict_eq_canonicalJsonDict tl (Bool.and_eq_true_iff.mp h).2
    simp [plainJsonDict, canonicalJsonDict, h1, h2]

end

/-- Claim C9, counterexample. The claimed equality — fingerprint = SHA-256 of
the audit-style canonical JSON (UUIDs as strings, timestamps ISO-8601 with
`Z`) of the body minus `request_id` — fails on a request carrying
`context.timestamp`: `_request_fingerprint` has no `default` handler, its
`json.dumps` raises `TypeError` on the `datetime` object (modelled `none`),
while the audit convention would serialize it. -/
theorem C9_counterexample_timestamp_body :
    _request_fingerprint (modelDump reqWithTimestamp) ≠
      some (sha256Hex (canonicalJson
        (.dict (removeKey "request_id" (modelDump reqWithTimestamp))))) := by
  have h : _request_fingerprint (modelDump reqWithTimestamp) = none := rfl
  rw [h]
  exact fun hc => Option.noConfusion hc

/-- Claim C9, amended. The idempotency fingerprint is the SHA-256 hex digest
of `json.dumps(body minus request_id, sort_keys=True, separators=(",",":"),
ensure_ascii=False)` **without** the audit `default` handler.  (1) On bodies
whose remainder after removing `request_id` contains no `uuid.UUID` /
`datetime` object this coincides with the claimed audit canonical-JSON
convention; when such an object is present (e.g. a parsed
`context.timestamp`) the computation raises instead of producing a
fingerprint.  (2) Two bodies differing only in `request_id` always have
equal fingerprint outcomes. -/
theorem C9_amended_fingerprint (body : PyDict) :
    (plainOnlyDict (removeKey "request_id" body) = true →
      _request_fingerprint body =
        some (sha256Hex (canonicalJson (.dict (removeKey "request_id" body)))))
    ∧ (∀ body2 : PyDict,
        removeKey "request_id" body = removeKey "request_id" body2 →
        _request_fingerprint body = _request_fingerprint body2) := by
  constructor
  · intro h
    have := plainJson_eq_canonicalJson (.dict (removeKey "request_id" body))
      (by simpa [plainOnly] using h)
    simp [_request_fingerprint, this]
  · intro body2 h
    simp [_request_fingerprint, h]

/-- Witness for C9 (amended): on the plain body of `reqRead` the fingerprint
equals the audit-canonical digest, and changing only `request_id`
(`reqReadOtherId`) leaves the fingerprint unchanged. -/
theorem C9_amended_fingerprint_witness :
    (plainOnlyDict (removeKey "request_id" (modelDump reqRead)) = true ∧
      _request_fingerprint (modelDump reqRead) =
        some (sha256Hex (canonicalJson
          (.dict (removeKey "request_id" (modelDump reqRead)))))) ∧
    _request_fingerprint (modelDump reqRead) =
      _request_fingerprint (modelDump reqReadOtherId) := by
  refine ⟨⟨by decide, (C9_amended_fingerprint (modelDump reqRead)).1 (by decide)⟩, ?_⟩
  exact (C9_amended_fingerprint (modelDump reqRead)).2 (modelDump reqReadOtherId) rfl

/-! ## Lemmas: pipeline path reductions -/

theorem verifyCore_disabled (env : Env) (st : St) (req : VerifyRequestV1)
    (h : env.antiReplayEnabled = false) : verifyCore env st req = stagesBCDE env st req := by
  simp [verifyCore, h]

theorem verifyCore_gateError_write (env : Env) (st : St) (req : VerifyRequestV1)
    (hen : env.antiReplayEnabled = true)
    (herr : check_replay env.replayRedisFails st.replay req.request_id (modelDump req)
      env.antiReplayTtlS = .error ())
    (hw : is_write_tool req.tool = true) :
    verifyCore env st req = (.ok replayUnavailableDeny, st) := by
  simp [verifyCore, hen, herr, hw]

theorem verifyCore_gateError_read (env : Env) (st : St) (req : VerifyRequestV1)
    (hen : env.antiReplayEnabled = true)
    (herr : check_replay env.replayRedisFails st.replay req.request_id (modelDump req)
      env.antiReplayTtlS = .error ())
    (hw : is_write_tool req.tool = false) :
    verifyCore env st req = stagesBCDE env st req := by
  simp [verifyCore, hen, herr, hw]

theorem verifyCore_new (env : Env) (st : St) (req : VerifyRequestV1)
    (rr : ReplayCheckResult) (store' : ReplayStore)
    (hen : env.antiReplayEnabled = true)
    (hok : check_replay env.replayRedisFails st.replay req.request_id (modelDump req)
      env.antiReplayTtlS = .ok (rr, store'))
    (hnew : rr.is_new = true) :
    verifyCore env st req = stagesBCDE env { st with replay := store' } req := by
  simp [verifyCore, hen, hok, hnew]

theorem verifyCore_replay_mismatch (env : Env) (st : St) (req : VerifyRequestV1)
    (rr : ReplayCheckResult) (store' : ReplayStore)
    (hen : env.antiReplayEnabled = true)
    (hok : check_replay env.replayRedisFails st.replay req.request_id (modelDump req)
      env.antiReplayTtlS = .ok (rr, store'))
    (hnew : rr.is_new = false) (hfm : rr.fingerprint_match = false) :
    verifyCore env st req = (.ok (mismatchDeny req.request_id), { st with replay := store' }) := by
  simp [verifyCore, hen, hok, hnew, hfm]

theorem verifyCore_replay_cached (env : Env) (st : St) (req : VerifyRequestV1)
    (rr : ReplayCheckResult) (store' : ReplayStore) (d : VerifyResponseV1)
    (hen : env.antiReplayEnabled = true)
    (hok : check_replay env.replayRedisFails st.replay req.request_id (modelDump req)
      env.antiReplayTtlS = .ok (rr, store'))
    (hnew : rr.is_new = false) (hfm : rr.fingerprint_match = true)
    (hcd : rr.cached_decision = some d) :
    verifyCore env st req =
      (.ok d, replayAuditBestEffort env { st with replay := store' } req d) := by
  simp [verifyCore, hen, hok, hnew, hfm, hcd]

theorem verifyCore_replay_concurrent (env : Env) (st : St) (req : VerifyRequestV1)
    (rr : ReplayCheckResult) (store' : ReplayStore)
    (hen : env.antiReplayEnabled = true)
    (hok : check_replay env.replayRedisFails st.replay req.request_id (modelDump req)
      env.antiReplayTtlS = .ok (rr, store'))
    (hnew : rr.is_new = false) (hfm : rr.fingerprint_match = true)
    (hcd : rr.cached_decision = none) :
    verifyCore env st req = (.ok (concurrentDeny req.request_id), { st with replay := store' }) := by
  simp [verifyCore, hen, hok, hnew, hfm, hcd]

/-! `check_replay` outcome lemmas. -/

theorem check_replay_raises_fp (redisFails : Bool) (store : ReplayStore)
    (rid : String) (body : PyDict) (ttl : Nat)
    (hfp : _request_fingerprint body = none) :
    check_replay redisFails store rid body ttl = .error () := by
  simp [check_replay, hfp]

theorem check_replay_raises_redis (store : ReplayStore) (rid : String) (body : PyDict)
    (ttl : Nat) : check_replay true store rid body ttl = .error () := by
  cases hfp : _request_fingerprint body <;> simp [check_replay, hfp]

theorem check_replay_new (store : ReplayStore) (rid : String) (body : PyDict) (ttl : Nat)
    (fp : String) (hfp : _request_fingerprint body = some fp)
    (hlook : alookup ("casf:req:" ++ rid) store = none) :
    check_replay false store rid body ttl =
      .ok (⟨true, none, true⟩, ainsert ("casf:req:" ++ rid) ⟨fp, none, ttl⟩ store) := by
  simp [check_replay, hfp, hlook]

theorem check_replay_existing (store : ReplayStore) (rid : String) (body : PyDict)
    (ttl : Nat) (fp : String) (entry : ReplayEntry)
    (hfp : _request_fingerprint body = some fp)
    (hlook : alookup ("casf:req:" ++ rid) store = some entry) :
    check_replay false store rid body ttl =
      (if entry.fp = fp then .ok (⟨false, entry.decision, true⟩, store)
       else .ok (⟨false, none, false⟩, store)) := by
  by_cases h : entry.fp = fp <;> simp [check_replay, hfp, hlook, h]

/-! `stagesBCDE` / `stageDE` reductions. -/

theorem stagesBCDE_badRequest (env : Env) (st : St) (req : VerifyRequestV1)
    (res : VerifyResponseV1) (c' : SmsCounters)
    (hr : apply_rules_v0 env.settings (some env.limiterRedisFails) st.counters req = (res, c'))
    (hv : res.violations = ["BadRequest_MissingPatientId"]) :
    stagesBCDE env st req = (.badRequest res.reason, { st with counters := c' }) := by
  simp [stagesBCDE, hr, hv]

theorem stagesBCDE_failClosed (env : Env) (st : St) (req : VerifyRequestV1)
    (res : VerifyResponseV1) (c' : SmsCounters)
    (hr : apply_rules_v0 env.settings (some env.limiterRedisFails) st.counters req = (res, c'))
    (hnb : res.violations ≠ ["BadRequest_MissingPatientId"])
    (hf : res.violations.contains "FAIL_CLOSED" = true) :
    stagesBCDE env st req =
      (if env.disableAudit then (.ok res, { st with counters := c' })
       else if env.auditFails then
        (.ok { res with reason := some (pyStrOpt res.reason ++ " | audit_append_failed") },
          { st with counters := c' })
       else (.ok res, appendAudit { st with counters := c' } req res none)) := by
  have hf' : "FAIL_CLOSED" ∈ res.violations := by simpa using hf
  by_cases h1 : env.disableAudit <;> by_cases h2 : env.auditFails <;>
    simp [stagesBCDE, hr, hnb, hf', h1, h2]

theorem stagesBCDE_opaError_write (env : Env) (st : St) (req : VerifyRequestV1)
    (res : VerifyResponseV1) (c' : SmsCounters)
    (hr : apply_rules_v0 env.settings (some env.limiterRedisFails) st.counters req = (res, c'))
    (hnb : res.violations ≠ ["BadRequest_MissingPatientId"])
    (hf : res.violations.contains "FAIL_CLOSED" = false)
    (ho : env.opaResult = .error ()) (hw : is_write_tool req.tool = true) :
    stagesBCDE env st req = (.ok opaUnavailableDeny, { st with counters := c' }) := by
  have hf' : "FAIL_CLOSED" ∉ res.violations := by simpa using hf
  simp [stagesBCDE, hr, hnb, hf', ho, hw]

theorem stagesBCDE_opaError_read (env : Env) (st : St) (req : VerifyRequestV1)
    (res : VerifyResponseV1) (c' : SmsCounters)
    (hr : apply_rules_v0 env.settings (some env.limiterRedisFails) st.counters req = (res, c'))
    (hnb : res.violations ≠ ["BadRequest_MissingPatientId"])
    (hf : res.violations.contains "FAIL_CLOSED" = false)
    (ho : env.opaResult = .error ()) (hw : is_write_tool req.tool = false) :
    stagesBCDE env st req = stageDE env { st with counters := c' } req res := by
  have hf' : "FAIL_CLOSED" ∉ res.violations := by simpa using hf
  simp [stagesBCDE, hr, hnb, hf', ho, hw]

theorem stagesBCDE_opaDeny (env : Env) (st : St) (req : VerifyRequestV1)
    (res : VerifyResponseV1) (c' : SmsCounters) (od : OpaDecision)
    (hr : apply_rules_v0 env.settings (some env.limiterRedisFails) st.counters req = (res, c'))
    (hnb : res.violations ≠ ["BadRequest_MissingPatientId"])
    (hf : res.violations.contains "FAIL_CLOSED" = false)
    (ho : env.opaResult = .ok od) (ha : od.allow = false) :
    stagesBCDE env st req = (.ok (opaDenyResp od), { st with counters := c' }) := by
  have hf' : "FAIL_CLOSED" ∉ res.violations := by simpa using hf
  simp [stagesBCDE, hr, hnb, hf', ho, ha]

theorem stagesBCDE_opaAllow (env : Env) (st : St) (req : VerifyRequestV1)
    (res : VerifyResponseV1) (c' : SmsCounters) (od : OpaDecision)
    (hr : apply_rules_v0 env.settings (some env.limiterRedisFails) st.counters req = (res, c'))
    (hnb : res.violations ≠ ["BadRequest_MissingPatientId"])
    (hf : res.violations.contains "FAIL_CLOSED" = false)
    (ho : env.opaResult = .ok od) (ha : od.allow = true) :
    stagesBCDE env st req = stageDE env { st with counters := c' } req res := by
  have hf' : "FAIL_CLOSED" ∉ res.violations := by simpa using hf
  simp [stagesBCDE, hr, hnb, hf', ho, ha]

theorem stageDE_disabledAudit (env : Env) (st : St) (req : VerifyRequestV1)
    (res : VerifyResponseV1) (h : env.disableAudit = true) :
    stageDE env st req res = (.ok res, bestEffortStore env st req res) := by
  simp [stageDE, h]

theorem stageDE_auditFail (env : Env) (st : St) (req : VerifyRequestV1)
    (res : VerifyResponseV1) (h : env.disableAudit = false) (ha : env.auditFails = true) :
    stageDE env st req res =
      (.ok { res with reason := some (pyStrOpt res.reason ++ " | audit_append_failed") }, st) := by
  simp [stageDE, h, ha]

theorem stageDE_auditOk (env : Env) (st : St) (req : VerifyRequestV1)
    (res : VerifyResponseV1) (h : env.disableAudit = false) (ha : env.auditFails = false) :
    stageDE env st req res = (.ok res, bestEffortStore env (appendAudit st req res none) req res) := by
  simp [stageDE, h, ha]

/-! Component preservation of the state helpers. -/

theorem bestEffortStore_audit (env : Env) (st : St) (req : VerifyRequestV1)
    (res : VerifyResponseV1) : (bestEffortStore env st req res).audit = st.audit := by
  unfold bestEffortStore
  by_cases h : env.antiReplayEnabled
  · simp only [h, if_true]
    cases hsd : store_decision env.storeRedisFails st.replay req.request_id (modelDump req) res <;>
      simp [hsd]
  · simp [h]

theorem bestEffortStore_counters (env : Env) (st : St) (req : VerifyRequestV1)
    (res : VerifyResponseV1) : (bestEffortStore env st req res).counters = st.counters := by
  unfold bestEffortStore
  by_cases h : env.antiReplayEnabled
  · simp only [h, if_true]
    cases hsd : store_decision env.storeRedisFails st.replay req.request_id (modelDump req) res <;>
      simp [hsd]
  · simp [h]

theorem replayAuditBestEffort_noAudit (env : Env) (st : St) (req : VerifyRequestV1)
    (d : VerifyResponseV1) :
    (replayAuditBestEffort env st req d).replay = st.replay ∧
    (replayAuditBestEffort env st req d).counters = st.counters ∧
    (replayAuditBestEffort env st req d).storeDecisionCalls = st.storeDecisionCalls := by
  unfold replayAuditBestEffort
  split
  · exact ⟨rfl, rfl, rfl⟩
  · split
    · exact ⟨rfl, rfl, rfl⟩
    · exact ⟨rfl, rfl, rfl⟩

theorem appendAudit_parts (st : St) (req : VerifyRequestV1) (res : VerifyResponseV1)
    (ov : Option String) :
    (appendAudit st req res ov).replay = st.replay ∧
    (appendAudit st req res ov).counters = st.counters ∧
    (appendAudit st req res ov).storeDecisionCalls = st.storeDecisionCalls ∧
    (appendAudit st req res ov).audit =
      st.audit ++ [⟨req.request_id, "role:" ++ req.role.str, ov.getD req.tool.str, res.decision⟩] :=
  ⟨rfl, rfl, rfl, rfl⟩

/-! Rule-engine reductions. -/

theorem apply_rules_missing_pid (s : Settings) (rl : Option Bool) (counters : SmsCounters)
    (req : VerifyRequestV1) (hpid : req.subject.patient_id = "") :
    apply_rules_v0 s rl counters req =
      (⟨.DENY, ["BadRequest_MissingPatientId"], [], some "subject.patient_id required"⟩,
        counters) := by
  simp [apply_rules_v0, hpid]

/-! ## C7: safe-mode write ban and degraded read -/

/-- Claim C7. For requests with a non-empty `patient_id`: (1) in `READ_ONLY`
or `KILL_SWITCH` mode a write tool is denied `[Inv_NoWriteSafe]` — this rule
fires regardless of the degraded-read table, i.e. before it (the branch is
reached first in `apply_rules_v0`); (2) in `READ_ONLY` mode
`cliniccloud.list_appointments` is allowed with
`allowed_outputs = ["slots_aggregated"]` and the degraded-output reason. -/
theorem C7_safe_mode_and_degraded_read (s : Settings) (rl : Option Bool)
    (counters : SmsCounters) (req : VerifyRequestV1)
    (hpid : req.subject.patient_id ≠ "") :
    ((req.mode = .READ_ONLY ∨ req.mode = .KILL_SWITCH) → is_write_tool req.tool = true →
      (apply_rules_v0 s rl counters req).1 =
        ⟨.DENY, ["Inv_NoWriteSafe"], [], some ("No writes allowed in " ++ req.mode.str)⟩)
    ∧ (req.mode = .READ_ONLY → req.tool = .list_appointments →
      (apply_rules_v0 s rl counters req).1 =
        ⟨.ALLOW, [], ["slots_aggregated"], some "OK (READ_ONLY degraded output)"⟩) := by
  constructor
  · intro hm hw
    rcases hm with hm | hm <;> simp [apply_rules_v0, hpid, hm, hw]
  · intro hm ht
    simp [apply_rules_v0, hpid, hm, ht, is_write_tool, WRITE_TOOLS, READ_ONLY_ALLOWED]

/-- Witness for C7: a `KILL_SWITCH` write is denied `Inv_NoWriteSafe`, a
`READ_ONLY` write is denied `Inv_NoWriteSafe`, and the `READ_ONLY` list
request gets the degraded allow. -/
theorem C7_safe_mode_and_degraded_read_witness :
    (apply_rules_v0 {} (some false) [] { reqWrite with mode := .KILL_SWITCH }).1 =
      ⟨.DENY, ["Inv_NoWriteSafe"], [], some "No writes allowed in KILL_SWITCH"⟩ ∧
    (apply_rules_v0 {} (some false) [] { reqWrite with mode := .READ_ONLY }).1 =
      ⟨.DENY, ["Inv_NoWriteSafe"], [], some "No writes allowed in READ_ONLY"⟩ ∧
    (apply_rules_v0 {} (some false) [] reqRead).1 =
      ⟨.ALLOW, [], ["slots_aggregated"], some "OK (READ_ONLY degraded output)"⟩ := by
  refine ⟨?_, ?_, ?_⟩
  · exact (C7_safe_mode_and_degraded_read {} (some false) []
      { reqWrite with mode := .KILL_SWITCH } (by decide)).1 (Or.inr rfl) (by decide)
  · exact (C7_safe_mode_and_degraded_read {} (some false) []
      { reqWrite with mode := .READ_ONLY } (by decide)).1 (Or.inl rfl) (by decide)
  · exact (C7_safe_mode_and_degraded_read {} (some false) [] reqRead (by decide)).2 rfl rfl

/-! ## C8: SMS rate limit -/

/-- Claim C8. For a `twilio.send_sms` request that passes the earlier rules
(non-empty `patient_id`, mode neither `READ_ONLY` nor `KILL_SWITCH`):
with no rate limiter (`rl=None`) or a raising limiter the rule engine denies
`[FAIL_CLOSED, Inv_NoSmsBurst]`; otherwise it atomically increments
`sms:{tenant_id}:{patient_id}` (setting the TTL to the tenant's window on a
fresh key, per the `INCR`/`EXPIRE` script) and denies `[Inv_NoSmsBurst]`
exactly when the incremented counter exceeds the tenant's limit, else falls
through to ALLOW `"OK"`.  The process defaults are 1 per 3600 s. -/
theorem C8_sms_rate_limit (s : Settings) (counters : SmsCounters) (req : VerifyRequestV1)
    (htool : req.tool = .send_sms) (hpid : req.subject.patient_id ≠ "")
    (hm1 : req.mode ≠ .READ_ONLY) (hm2 : req.mode ≠ .KILL_SWITCH) :
    let tenant_id := req.context.tenant_id
    let tenant_cfg := (alookup tenant_id s.smsTenantOverrides).getD {}
    let limit := tenant_cfg.limit.getD s.smsRateLimit
    let window_s := tenant_cfg.window_s.getD s.smsRateWindowS
    let key := "sms:" ++ tenant_id ++ ":" ++ req.subject.patient_id
    let current := ((alookup key counters).map Prod.fst).getD 0 + 1
    (apply_rules_v0 s none counters req =
      (⟨.DENY, ["FAIL_CLOSED", "Inv_NoSmsBurst"], [], some "Rate limiter not available"⟩,
        counters))
    ∧ (apply_rules_v0 s (some true) counters req =
      (⟨.DENY, ["FAIL_CLOSED", "Inv_NoSmsBurst"], [],
        some "Rate limiter unavailable (fail-closed)"⟩, counters))
    ∧ (apply_rules_v0 s (some false) counters req =
      ((if current ≤ limit then ⟨.ALLOW, [], [], some "OK"⟩
        else ⟨.DENY, ["Inv_NoSmsBurst"], [], some "SMS rate limit exceeded"⟩),
       ainsert key
         (current, if current = 1 then window_s else ((alookup key counters).map Prod.snd).getD 0)
         counters))
    ∧ defaultSettings.smsRateLimit = 1 ∧ defaultSettings.smsRateWindowS = 3600 := by
  have hmode : ¬(req.mode = Mode.READ_ONLY ∨ req.mode = Mode.KILL_SWITCH) := by
    rintro (h | h)
    · exact hm1 h
    · exact hm2 h
  refine ⟨?_, ?_, ?_, rfl, rfl⟩
  · simp [apply_rules_v0, hpid, hmode, hm1, hm2, htool]
  · simp [apply_rules_v0, hpid, hmode, hm1, hm2, htool, rlCheck]
  · by_cases hcl : ((alookup ("sms:" ++ req.context.tenant_id ++ ":" ++
        req.subject.patient_id) counters).map Prod.fst).getD 0 + 1 ≤
        ((alookup req.context.tenant_id s.smsTenantOverrides).getD {}).limit.getD
          s.smsRateLimit <;>
      simp [apply_rules_v0, hpid, hmode, hm1, hm2, htool, rlCheck, hcl]

/-- Witness for C8, the spec's SMS-burst scenario with the default tenant
configuration: absent limiter → fail-closed deny; raising limiter →
fail-closed deny; first send for `(t-demo, p1)` → ALLOW `"OK"` and the
counter key is written with TTL 3600; the second send → DENY
`[Inv_NoSmsBurst]`. -/
theorem C8_sms_rate_limit_witness :
    (apply_rules_v0 {} none [] reqSms =
      (⟨.DENY, ["FAIL_CLOSED", "Inv_NoSmsBurst"], [], some "Rate limiter not available"⟩, []))
    ∧ (apply_rules_v0 {} (some true) [] reqSms =
      (⟨.DENY, ["FAIL_CLOSED", "Inv_NoSmsBurst"], [],
        some "Rate limiter unavailable (fail-closed)"⟩, []))
    ∧ (apply_rules_v0 {} (some false) [] reqSms =
      (⟨.ALLOW, [], [], some "OK"⟩, [("sms:t-demo:p1", (1, 3600))]))
    ∧ ((apply_rules_v0 {} (some false) [("sms:t-demo:p1", (1, 3600))] reqSms).1 =
      ⟨.DENY, ["Inv_NoSmsBurst"], [], some "SMS rate limit exceeded"⟩) := by
  have h0 := C8_sms_rate_limit {} [] reqSms (by decide) (by decide) (by decide) (by decide)
  have h1 := C8_sms_rate_limit {} [("sms:t-demo:p1", (1, 3600))] reqSms
    (by decide) (by decide) (by decide) (by decide)
  refine ⟨h0.1, h0.2.1, ?_, ?_⟩
  · rw [h0.2.2.1]; decide
  · rw [h1.2.2.1]; decide

/-! ## C4: missing patient_id -/

/-- Claim C4. For a request whose subject has no non-empty `patient_id`:
(1) the rule engine returns the canonical
`{DENY, [BadRequest_MissingPatientId]}` response for any settings, limiter
and counter state; (2) whenever such a request reaches Stage B (anti-replay
disabled, or the idempotency gate raised on this read/write-irrelevant
request with a read tool, or the gate claimed a fresh entry), the pipeline
raises `HTTPException(400, res.reason)` — exactly the
`["BadRequest_MissingPatientId"]` violation list is mapped to 400 — and the
audit table is untouched. -/
theorem C4_missing_patient_id_maps_to_400 (req : VerifyRequestV1)
    (hpid : req.subject.patient_id = "") :
    (∀ (s : Settings) (rl : Option Bool) (counters : SmsCounters),
      apply_rules_v0 s rl counters req =
        (⟨.DENY, ["BadRequest_MissingPatientId"], [], some "subject.patient_id required"⟩,
          counters))
    ∧ (∀ (env : Env) (st : St),
        (env.antiReplayEnabled = false
          ∨ (check_replay env.replayRedisFails st.replay req.request_id (modelDump req)
              env.antiReplayTtlS = .error () ∧ is_write_tool req.tool = false)
          ∨ (∃ rr store', check_replay env.replayRedisFails st.replay req.request_id
              (modelDump req) env.antiReplayTtlS = .ok (rr, store') ∧ rr.is_new = true)) →
        (verifyCore env st req).1 = .badRequest (some "subject.patient_id required")
        ∧ (verifyCore env st req).2.audit = st.audit) := by
  have hrules : ∀ (s : Settings) (rl : Option Bool) (counters : SmsCounters),
      apply_rules_v0 s rl counters req =
        (⟨.DENY, ["BadRequest_MissingPatientId"], [], some "subject.patient_id required"⟩,
          counters) :=
    fun s rl counters => apply_rules_missing_pid s rl counters req hpid
  refine ⟨hrules, ?_⟩
  intro env st hgate
  have hbcde : ∀ st' : St, stagesBCDE env st' req =
      (.badRequest (some "subject.patient_id required"), { st' with counters := st'.counters }) := by
    intro st'
    exact stagesBCDE_badRequest env st' req _ _ (hrules _ _ _) rfl
  by_cases hen : env.antiReplayEnabled
  · rcases hgate with hdis | ⟨herr, hrd⟩ | ⟨rr, store', hok, hnew⟩
    · rw [hen] at hdis
      exact Bool.noConfusion hdis
    · rw [verifyCore_gateError_read env st req hen herr hrd, hbcde st]
      exact ⟨rfl, rfl⟩
    · rw [verifyCore_new env st req rr store' hen hok hnew, hbcde _]
      exact ⟨rfl, rfl⟩
  · rw [verifyCore_disabled env st req (by simpa using hen), hbcde st]
    exact ⟨rfl, rfl⟩

/-- Witness for C4: the concrete no-patient request with anti-replay
disabled gets the 400 and writes no audit row; the rule engine alone
produces the canonical bad-request response. -/
theorem C4_missing_patient_id_maps_to_400_witness :
    apply_rules_v0 {} (some false) [] reqNoPatient =
      (⟨.DENY, ["BadRequest_MissingPatientId"], [], some "subject.patient_id required"⟩, []) ∧
    (verifyCore envPlain {} reqNoPatient).1 =
      .badRequest (some "subject.patient_id required") ∧
    (verifyCore envPlain {} reqNoPatient).2.audit = [] := by
  have h := C4_missing_patient_id_maps_to_400 reqNoPatient rfl
  have h2 := h.2 envPlain {} (Or.inl rfl)
  exact ⟨h.1 {} (some false) [], h2.1, h2.2⟩

/-! ## C1: audit append failure at Stage D (code bug) -/

/-- Claim C1, bug evaluation. A degraded-read request that reaches Stage D
with `append_audit_event` raising: `_verify_core` returns the *preliminary*
decision — ALLOW with `" | audit_append_failed"` appended to the reason and
an empty violation list — not the DENY `[FAIL_CLOSED, Audit_Unavailable]`
that the spec (precedence row 10) and the repository's own regression test
`test_audit_append_failure_denies_fail_closed` demand; no code path ever
emits `"Audit_Unavailable"`. -/
theorem C1_audit_failure_keeps_preliminary_decision :
    (verifyCore envAuditDown {} reqRead).1 =
      .ok ⟨.ALLOW, [], ["slots_aggregated"],
        some "OK (READ_ONLY degraded output) | audit_append_failed"⟩ := by
  decide

/-! ## C2: anti-replay gate on an existing idempotency entry -/

/-- Claim C2. With anti-replay enabled, for a request whose `request_id`
already has an idempotency entry (and whose fingerprint is computable and
whose Redis round-trip succeeds): a stored-fingerprint mismatch yields DENY
`[Inv_ReplayPayloadMismatch]`; a fingerprint match with a cached decision
returns exactly that cached decision — with a best-effort audit row whose
`action` is `"REPLAY_DETECTED"` appended when auditing is enabled and the
append succeeds; a fingerprint match with a still-null decision yields DENY
`[Inv_ReplayConcurrent]`. -/
theorem C2_replay_gate (env : Env) (st : St) (req : VerifyRequestV1)
    (fp : String) (entry : ReplayEntry)
    (hen : env.antiReplayEnabled = true)
    (hred : env.replayRedisFails = false)
    (hfp : _request_fingerprint (modelDump req) = some fp)
    (hentry : alookup ("casf:req:" ++ req.request_id) st.replay = some entry) :
    (entry.fp ≠ fp → verifyCore env st req = (.ok (mismatchDeny req.request_id), st))
    ∧ (∀ d, entry.fp = fp → entry.decision = some d →
        verifyCore env st req = (.ok d, replayAuditBestEffort env st req d)
        ∧ (env.disableAudit = false → env.auditFails = false →
            (verifyCore env st req).2.audit =
              st.audit ++
                [⟨req.request_id, "role:" ++ req.role.str, "REPLAY_DETECTED", d.decision⟩]))
    ∧ (entry.fp = fp → entry.decision = none →
        verifyCore env st req = (.ok (concurrentDeny req.request_id), st)) := by
  have hcr := check_replay_existing st.replay req.request_id (modelDump req)
    env.antiReplayTtlS fp entry hfp hentry
  refine ⟨?_, ?_, ?_⟩
  · intro hne
    rw [if_neg hne] at hcr
    exact verifyCore_replay_mismatch env st req ⟨false, none, false⟩ st.replay hen
      (by rw [hred]; exact hcr) rfl rfl
  · intro d heq hdec
    rw [if_pos heq, hdec] at hcr
    have hrun := verifyCore_replay_cached env st req ⟨false, some d, true⟩ st.replay d hen
      (by rw [hred]; exact hcr) rfl rfl rfl
    refine ⟨hrun, ?_⟩
    intro hda hdf
    rw [hrun]
    show (replayAuditBestEffort env st req d).audit = _
    rw [replayAuditBestEffort, if_neg (by simp [hda]), if_neg (by simp [hdf])]
    exact (appendAudit_parts st req d (some "REPLAY_DETECTED")).2.2.2
  · intro heq hdec
    rw [if_pos heq, hdec] at hcr
    exact verifyCore_replay_concurrent env st req ⟨false, none, true⟩ st.replay hen
      (by rw [hred]; exact hcr) rfl rfl rfl

/-- Witness for C2: with a stored entry for `reqRead`'s id, a fingerprint
mismatch denies `Inv_ReplayPayloadMismatch`; a match with a cached ALLOW
returns it and appends the `REPLAY_DETECTED` audit row; a match with a
pending decision denies `Inv_ReplayConcurrent`. -/
theorem C2_replay_gate_witness :
    (verifyCore envReplayOn stMismatch reqRead).1 =
      .ok (mismatchDeny "11111111-1111-1111-1111-111111111111") ∧
    ((verifyCore envReplayOn stCached reqRead).1 = .ok cachedAllow ∧
      (verifyCore envReplayOn stCached reqRead).2.audit =
        [⟨"11111111-1111-1111-1111-111111111111", "role:receptionist", "REPLAY_DETECTED",
          .ALLOW⟩]) ∧
    (verifyCore envReplayOn stPending reqRead).1 =
      .ok (concurrentDeny "11111111-1111-1111-1111-111111111111") := by
  have hmm := (C2_replay_gate envReplayOn stMismatch reqRead fpReqRead
    ⟨"not-the-fingerprint", none, 86400⟩ rfl rfl (by decide) rfl).1 (by decide)
  have hca := (C2_replay_gate envReplayOn stCached reqRead fpReqRead
    ⟨fpReqRead, some cachedAllow, 86400⟩ rfl rfl (by decide) rfl).2.1 cachedAllow rfl rfl
  have hpe := (C2_replay_gate envReplayOn stPending reqRead fpReqRead
    ⟨fpReqRead, none, 86400⟩ rfl rfl (by decide) rfl).2.2 rfl rfl
  refine ⟨by rw [hmm]; rfl, ⟨by rw [hca.1], ?_⟩, by rw [hpe]; rfl⟩
  rw [hca.2 rfl rfl]
  rfl

/-! ## C3: idempotency store error -/

/-- Flipping `antiReplayEnabled` changes nothing observable about Stage D:
the response, audit table and counters of `stageDE` agree (only the
best-effort `store_decision` bookkeeping differs). -/
theorem stageDE_toggle (env : Env) (b : Bool) (st : St) (req : VerifyRequestV1)
    (res : VerifyResponseV1) :
    (stageDE { env with antiReplayEnabled := b } st req res).1 = (stageDE env st req res).1
    ∧ (stageDE { env with antiReplayEnabled := b } st req res).2.audit =
      (stageDE env st req res).2.audit
    ∧ (stageDE { env with antiReplayEnabled := b } st req res).2.counters =
      (stageDE env st req res).2.counters := by
  by_cases h1 : env.disableAudit <;> by_cases h2 : env.auditFails <;>
    simp [stageDE, h1, h2, bestEffortStore_audit, bestEffortStore_counters]

/-- Flipping `antiReplayEnabled` changes nothing observable about stages
B–D. -/
theorem stagesBCDE_toggle (env : Env) (b : Bool) (st : St) (req : VerifyRequestV1) :
    (stagesBCDE { env with antiReplayEnabled := b } st req).1 = (stagesBCDE env st req).1
    ∧ (stagesBCDE { env with antiReplayEnabled := b } st req).2.audit =
      (stagesBCDE env st req).2.audit
    ∧ (stagesBCDE { env with antiReplayEnabled := b } st req).2.counters =
      (stagesBCDE env st req).2.counters := by
  rcases hpr : apply_rules_v0 env.settings (some env.limiterRedisFails) st.counters req
    with ⟨res, c'⟩
  by_cases hv : res.violations = ["BadRequest_MissingPatientId"]
  · simp [stagesBCDE, hpr, hv]
  · by_cases hf : "FAIL_CLOSED" ∈ res.violations
    · by_cases h1 : env.disableAudit <;> by_cases h2 : env.auditFails <;>
        simp [stagesBCDE, hpr, hv, hf, h1, h2]
    · cases ho : env.opaResult with
      | error e =>
        by_cases hw : is_write_tool req.tool
        · simp [stagesBCDE, hpr, hv, hf, ho, hw]
        · simpa [stagesBCDE, hpr, hv, hf, ho, hw] using
            stageDE_toggle env b { st with counters := c' } req res
      | ok od =>
        by_cases ha : od.allow
        · simpa [stagesBCDE, hpr, hv, hf, ho, ha] using
            stageDE_toggle env b { st with counters := c' } req res
        · simp [stagesBCDE, hpr, hv, hf, ho, ha]

/-- Claim C3. If `check_replay` raises in Stage A (Redis failure, or the
fingerprint computation itself raising): a write-tool request is denied
`[FAIL_CLOSED, Inv_ReplayCheckUnavailable]`; a read-tool request continues
through the remaining stages exactly as if anti-replay were disabled — same
response, same audit rows, same rate-limit counters (Stage E's suppressed
best-effort `store_decision` bookkeeping is the only difference). -/
theorem C3_store_error_fail_modes (env : Env) (st : St) (req : VerifyRequestV1)
    (hen : env.antiReplayEnabled = true)
    (herr : check_replay env.replayRedisFails st.replay req.request_id (modelDump req)
      env.antiReplayTtlS = .error ()) :
    (is_write_tool req.tool = true →
      verifyCore env st req = (.ok replayUnavailableDeny, st))
    ∧ (is_write_tool req.tool = false →
        (verifyCore env st req).1 =
          (verifyCore { env with antiReplayEnabled := false } st req).1
        ∧ (verifyCore env st req).2.audit =
          (verifyCore { env with antiReplayEnabled := false } st req).2.audit
        ∧ (verifyCore env st req).2.counters =
          (verifyCore { env with antiReplayEnabled := false } st req).2.counters) := by
  refine ⟨fun hw => verifyCore_gateError_write env st req hen herr hw, fun hr => ?_⟩
  rw [verifyCore_gateError_read env st req hen herr hr,
    verifyCore_disabled { env with antiReplayEnabled := false } st req rfl]
  exact ⟨(stagesBCDE_toggle env false st req).1.symm,
    (stagesBCDE_toggle env false st req).2.1.symm,
    (stagesBCDE_toggle env false st req).2.2.symm⟩

/-- Witness for C3: with the replay store down, the write request is denied
fail-closed, while the read request gets the same response / audit /
counters as with anti-replay disabled. -/
theorem C3_store_error_fail_modes_witness :
    verifyCore envRedisDown {} reqWrite = (.ok replayUnavailableDeny, {}) ∧
    ((verifyCore envRedisDown {} reqRead).1 =
      (verifyCore { envRedisDown with antiReplayEnabled := false } {} reqRead).1
    ∧ (verifyCore envRedisDown {} reqRead).2.audit =
      (verifyCore { envRedisDown with antiReplayEnabled := false } {} reqRead).2.audit
    ∧ (verifyCore envRedisDown {} reqRead).2.counters =
      (verifyCore { envRedisDown with antiReplayEnabled := false } {} reqRead).2.counters) := by
  constructor
  · exact (C3_store_error_fail_modes envRedisDown {} reqWrite rfl
      (check_replay_raises_redis [] reqWrite.request_id (modelDump reqWrite) 86400)).1 rfl
  · exact (C3_store_error_fail_modes envRedisDown {} reqRead rfl
      (check_replay_raises_redis [] reqRead.request_id (modelDump reqRead) 86400)).2 rfl

/-! ## C6: policy stage -/

/-- Claim C6. Stage C of the pipeline (`stagesBCDE` is `_verify_core` from
`apply_rules_v0` on; the preliminary result `res` is assumed past the
400 and `FAIL_CLOSED` gates of Stage B): a raising policy client denies a
write tool `[FAIL_CLOSED, OPA_Unavailable]` and lets a read tool proceed to
Stage D with the verdict treated as absent; `allow == false` denies with
the engine's violations deduplicated in insertion order
(`list(dict.fromkeys(...))` = `dedupFirst`), or `["OPA_Deny"]` when empty;
`allow == true` returns the rule engine's preliminary result (as always
subject to the Stage D audit outcome — see C1). -/
theorem C6_policy_stage (env : Env) (st : St) (req : VerifyRequestV1)
    (res : VerifyResponseV1) (c' : SmsCounters)
    (hr : apply_rules_v0 env.settings (some env.limiterRedisFails) st.counters req = (res, c'))
    (hnb : res.violations ≠ ["BadRequest_MissingPatientId"])
    (hf : res.violations.contains "FAIL_CLOSED" = false) :
    (env.opaResult = .error () → is_write_tool req.tool = true →
      stagesBCDE env st req =
        (.ok ⟨.DENY, ["FAIL_CLOSED", "OPA_Unavailable"], [],
          some "OPA unavailable (fail-closed on write)"⟩, { st with counters := c' }))
    ∧ (env.opaResult = .error () → is_write_tool req.tool = false →
      stagesBCDE env st req = stageDE env { st with counters := c' } req res)
    ∧ (∀ od, env.opaResult = .ok od → od.allow = false →
      stagesBCDE env st req =
        (.ok ⟨.DENY,
          dedupFirst (if od.violations.isEmpty then ["OPA_Deny"] else od.violations), [],
          some "Denied by OPA policy"⟩, { st with counters := c' }))
    ∧ (∀ od, env.opaResult = .ok od → od.allow = true →
      (env.disableAudit = true ∨ env.auditFails = false) →
      (stagesBCDE env st req).1 = .ok res) := by
  refine ⟨?_, ?_, ?_, ?_⟩
  · intro ho hw
    exact stagesBCDE_opaError_write env st req res c' hr hnb hf ho hw
  · intro ho hw
    exact stagesBCDE_opaError_read env st req res c' hr hnb hf ho hw
  · intro od ho ha
    exact stagesBCDE_opaDeny env st req res c' od hr hnb hf ho ha
  · intro od ho ha haud
    rw [stagesBCDE_opaAllow env st req res c' od hr hnb hf ho ha]
    rcases haud with hda | hdf
    · rw [stageDE_disabledAudit env _ req res hda]
    · by_cases hda : env.disableAudit
      · rw [stageDE_disabledAudit env _ req res hda]
      · rw [stageDE_auditOk env _ req res (by simpa using hda) hdf]

/-- Witness for C6: with OPA down the write request is denied fail-closed
and the read request's outcome equals the Stage D processing of the rule
result; an OPA deny with duplicated violations is returned deduplicated in
insertion order; an OPA deny with an empty list becomes `["OPA_Deny"]`; an
OPA allow returns the rule engine's ALLOW. -/
theorem C6_policy_stage_witness :
    stagesBCDE envOpaDown {} reqWrite =
      (.ok ⟨.DENY, ["FAIL_CLOSED", "OPA_Unavailable"], [],
        some "OPA unavailable (fail-closed on write)"⟩, {}) ∧
    stagesBCDE envOpaDown {} { reqRead with mode := .ALLOW } =
      stageDE envOpaDown {} { reqRead with mode := .ALLOW }
        ⟨.ALLOW, [], [], some "OK"⟩ ∧
    (stagesBCDE envOpaDenyDup {} reqWrite).1 =
      .ok ⟨.DENY, ["Dup", "Other"], [], some "Denied by OPA policy"⟩ ∧
    (stagesBCDE envOpaDenyEmpty {} reqWrite).1 =
      .ok ⟨.DENY, ["OPA_Deny"], [], some "Denied by OPA policy"⟩ ∧
    (stagesBCDE envPlain {} reqWrite).1 = .ok ⟨.ALLOW, [], [], some "OK"⟩ := by
  refine ⟨?_, ?_, ?_, ?_, ?_⟩
  · exact (C6_policy_stage envOpaDown {} reqWrite ⟨.ALLOW, [], [], some "OK"⟩ []
      (by decide) (by decide) (by decide)).1 rfl (by decide)
  · exact (C6_policy_stage envOpaDown {} { reqRead with mode := .ALLOW }
      ⟨.ALLOW, [], [], some "OK"⟩ [] (by decide) (by decide) (by decide)).2.1 rfl (by decide)
  · rw [(C6_policy_stage envOpaDenyDup {} reqWrite ⟨.ALLOW, [], [], some "OK"⟩ []
      (by decide) (by decide) (by decide)).2.2.1 ⟨false, ["Dup", "Other", "Dup"]⟩ rfl rfl]
    decide
  · rw [(C6_policy_stage envOpaDenyEmpty {} reqWrite ⟨.ALLOW, [], [], some "OK"⟩ []
      (by decide) (by decide) (by decide)).2.2.1 ⟨false, []⟩ rfl rfl]
    decide
  · exact (C6_policy_stage envPlain {} reqWrite ⟨.ALLOW, [], [], some "OK"⟩ []
      (by decide) (by decide) (by decide)).2.2.2 ⟨true, []⟩ rfl rfl (Or.inr rfl)

/-! ## C10: store_decision discipline -/

theorem append_singleton_ne {α : Type} (l : List α) (x : α) : l ++ [x] ≠ l := by
  intro h
  have := congrArg List.length h
  simp at this

theorem alookup_ainsert_self {α : Type} (k : String) (v : α) :
    ∀ (l : List (String × α)), alookup k (ainsert k v l) = some v := by
  intro l
  induction l with
  | nil => simp [ainsert, alookup]
  | cons p rest ih =>
    by_cases h : p.1 = k
    · simp [ainsert, alookup, h]
    · simp [ainsert, alookup, h, ih]

/-- Stage D calls `store_decision` only in its audit-disabled or
audit-success branches. -/
theorem stageDE_storeCalls (env : Env) (st : St) (req : VerifyRequestV1)
    (res : VerifyResponseV1) :
    (stageDE env st req res).2.storeDecisionCalls ≠ st.storeDecisionCalls →
    env.disableAudit = true ∨
      (env.auditFails = false ∧ (stageDE env st req res).2.audit ≠ st.audit) := by
  by_cases h1 : env.disableAudit
  · intro _
    exact Or.inl h1
  · by_cases h2 : env.auditFails
    · rw [stageDE_auditFail env st req res (by simpa using h1) h2]
      intro h
      exact absurd rfl h
    · rw [stageDE_auditOk env st req res (by simpa using h1) (by simpa using h2)]
      intro _
      refine Or.inr ⟨by simpa using h2, ?_⟩
      rw [bestEffortStore_audit, (appendAudit_parts st req res none).2.2.2]
      exact append_singleton_ne st.audit _

/-- Stages B–D call `store_decision` only when auditing is disabled or the
Stage D append succeeded (in which case the audit table grew). -/
theorem stagesBCDE_storeCalls (env : Env) (st : St) (req : VerifyRequestV1) :
    (stagesBCDE env st req).2.storeDecisionCalls ≠ st.storeDecisionCalls →
    env.disableAudit = true ∨
      (env.auditFails = false ∧ (stagesBCDE env st req).2.audit ≠ st.audit) := by
  rcases hpr : apply_rules_v0 env.settings (some env.limiterRedisFails) st.counters req
    with ⟨res, c'⟩
  by_cases hv : res.violations = ["BadRequest_MissingPatientId"]
  · simp [stagesBCDE, hpr, hv]
  · by_cases hf : "FAIL_CLOSED" ∈ res.violations
    · by_cases h1 : env.disableAudit <;> by_cases h2 : env.auditFails <;>
        simp [stagesBCDE, hpr, hv, hf, h1, h2, appendAudit]
    · cases ho : env.opaResult with
      | error e =>
        by_cases hw : is_write_tool req.tool
        · simp [stagesBCDE, hpr, hv, hf, ho, hw]
        · simpa [stagesBCDE, hpr, hv, hf, ho, hw] using
            stageDE_storeCalls env { st with counters := c' } req res
      | ok od =>
        by_cases ha : od.allow
        · simpa [stagesBCDE, hpr, hv, hf, ho, ha] using
            stageDE_storeCalls env { st with counters := c' } req res
        · simp [stagesBCDE, hpr, hv, hf, ho, ha]

/-- Claim C10. `store_decision` discipline of the pipeline.
(1) Whenever a run increments the `store_decision` call count, auditing was
disabled (`CASF_DISABLE_AUDIT`) or the Stage D append succeeded (and the
audit table grew in that run).  The short-circuiting responses make no
`store_decision` call: (2) the store-error write deny, (3) every Stage A
replay outcome (`is_new = False`: payload-mismatch deny, cached return,
concurrent deny), (4) the rule-engine `FAIL_CLOSED` deny, (5) the
policy-error write deny, (6) the policy deny, and (7) the audit-failure
response.  (8) Consequently, when Stage A claimed a fresh entry and the
run left it untouched — still `{fp, decision: null}`, as it is on each of
those no-store paths — an identical retry is denied
`[Inv_ReplayConcurrent]` instead of receiving the earlier decision, until
the entry's TTL expires (time is not modelled: entries persist). -/
theorem C10_store_decision_only_after_audit (env : Env) (st : St) (req : VerifyRequestV1) :
    ((verifyCore env st req).2.storeDecisionCalls ≠ st.storeDecisionCalls →
      env.disableAudit = true ∨
        (env.auditFails = false ∧ (verifyCore env st req).2.audit ≠ st.audit))
    ∧ (env.antiReplayEnabled = true →
        check_replay env.replayRedisFails st.replay req.request_id (modelDump req)
          env.antiReplayTtlS = .error () → is_write_tool req.tool = true →
        (verifyCore env st req).2.storeDecisionCalls = st.storeDecisionCalls)
    ∧ (∀ rr store', env.antiReplayEnabled = true →
        check_replay env.replayRedisFails st.replay req.request_id (modelDump req)
          env.antiReplayTtlS = .ok (rr, store') → rr.is_new = false →
        (verifyCore env st req).2.storeDecisionCalls = st.storeDecisionCalls)
    ∧ (∀ res c', apply_rules_v0 env.settings (some env.limiterRedisFails) st.counters req =
          (res, c') → res.violations ≠ ["BadRequest_MissingPatientId"] →
        res.violations.contains "FAIL_CLOSED" = true →
        (stagesBCDE env st req).2.storeDecisionCalls = st.storeDecisionCalls)
    ∧ (∀ res c', apply_rules_v0 env.settings (some env.limiterRedisFails) st.counters req =
          (res, c') → res.violations ≠ ["BadRequest_MissingPatientId"] →
        res.violations.contains "FAIL_CLOSED" = false →
        env.opaResult = .error () → is_write_tool req.tool = true →
        (stagesBCDE env st req).2.storeDecisionCalls = st.storeDecisionCalls)
    ∧ (∀ res c' od, apply_rules_v0 env.settings (some env.limiterRedisFails) st.counters req =
          (res, c') → res.violations ≠ ["BadRequest_MissingPatientId"] →
        res.violations.contains "FAIL_CLOSED" = false →
        env.opaResult = .ok od → od.allow = false →
        (stagesBCDE env st req).2.storeDecisionCalls = st.storeDecisionCalls)
    ∧ (∀ res, env.disableAudit = false → env.auditFails = true →
        (stageDE env st req res).2.storeDecisionCalls = st.storeDecisionCalls)
    ∧ (∀ fp, env.antiReplayEnabled = true → env.replayRedisFails = false →
        _request_fingerprint (modelDump req) = some fp →
        alookup ("casf:req:" ++ req.request_id) st.replay = none →
        (verifyCore env st req).2.replay =
          ainsert ("casf:req:" ++ req.request_id) ⟨fp, none, env.antiReplayTtlS⟩ st.replay →
        verifyCore env (verifyCore env st req).2 req =
          (.ok (concurrentDeny req.request_id), (verifyCore env st req).2)) := by
  refine ⟨?_, ?_, ?_, ?_, ?_, ?_, ?_, ?_⟩
  · -- (1) store call implies audit disabled or audit appended
    by_cases hen : env.antiReplayEnabled
    · cases hcr : check_replay env.replayRedisFails st.replay req.request_id (modelDump req)
        env.antiReplayTtlS with
      | error e =>
        by_cases hw : is_write_tool req.tool
        · rw [verifyCore_gateError_write env st req hen hcr hw]
          intro h
          exact absurd rfl h
        · rw [verifyCore_gateError_read env st req hen hcr (by simpa using hw)]
          exact stagesBCDE_storeCalls env st req
      | ok pr =>
        rcases pr with ⟨rr, store'⟩
        by_cases hnew : rr.is_new
        · rw [verifyCore_new env st req rr store' hen hcr hnew]
          exact stagesBCDE_storeCalls env { st with replay := store' } req
        · by_cases hfm : rr.fingerprint_match
          · cases hcd : rr.cached_decision with
            | some d =>
              rw [verifyCore_replay_cached env st req rr store' d hen hcr
                (by simpa using hnew) hfm hcd]
              intro h
              exact absurd (replayAuditBestEffort_noAudit env
                { st with replay := store' } req d).2.2 h
            | none =>
              rw [verifyCore_replay_concurrent env st req rr store' hen hcr
                (by simpa using hnew) hfm hcd]
              intro h
              exact absurd rfl h
          · rw [verifyCore_replay_mismatch env st req rr store' hen hcr
              (by simpa using hnew) (by simpa using hfm)]
            intro h
            exact absurd rfl h
    · rw [verifyCore_disabled env st req (by simpa using hen)]
      exact stagesBCDE_storeCalls env st req
  · -- (2) store-error write deny
    intro hen herr hw
    rw [verifyCore_gateError_write env st req hen herr hw]
  · -- (3) any replay outcome
    intro rr store' hen hok hnew
    by_cases hfm : rr.fingerprint_match
    · cases hcd : rr.cached_decision with
      | some d =>
        rw [verifyCore_replay_cached env st req rr store' d hen hok hnew hfm hcd]
        exact (replayAuditBestEffort_noAudit env { st with replay := store' } req d).2.2
      | none =>
        rw [verifyCore_replay_concurrent env st req rr store' hen hok hnew hfm hcd]
    · rw [verifyCore_replay_mismatch env st req rr store' hen hok hnew (by simpa using hfm)]
  · -- (4) rule-engine FAIL_CLOSED deny
    intro res c' hr hnb hf
    rw [stagesBCDE_failClosed env st req res c' hr hnb hf]
    by_cases h1 : env.disableAudit <;> by_cases h2 : env.auditFails <;>
      simp [h1, h2, appendAudit]
  · -- (5) policy-error write deny
    intro res c' hr hnb hf ho hw
    rw [stagesBCDE_opaError_write env st req res c' hr hnb hf ho hw]
  · -- (6) policy deny
    intro res c' od hr hnb hf ho ha
    rw [stagesBCDE_opaDeny env st req res c' od hr hnb hf ho ha]
  · -- (7) audit-failure response
    intro res hda hdf
    rw [stageDE_auditFail env st req res hda hdf]
  · -- (8) identical retry of a claimed-then-unstored request
    intro fp hen hred hfp hlook hkept
    have hlook2 : alookup ("casf:req:" ++ req.request_id) (verifyCore env st req).2.replay =
        some ⟨fp, none, env.antiReplayTtlS⟩ := by
      rw [hkept]
      exact alookup_ainsert_self _ _ st.replay
    have hcr2 : check_replay env.replayRedisFails (verifyCore env st req).2.replay
        req.request_id (modelDump req) env.antiReplayTtlS =
        .ok (⟨false, none, true⟩, (verifyCore env st req).2.replay) := by
      rw [hred]
      have := check_replay_existing (verifyCore env st req).2.replay req.request_id
        (modelDump req) env.antiReplayTtlS fp ⟨fp, none, env.antiReplayTtlS⟩ hfp hlook2
      rwa [if_pos rfl] at this
    exact verifyCore_replay_concurrent env (verifyCore env st req).2 req
      ⟨false, none, true⟩ (verifyCore env st req).2.replay hen hcr2 rfl rfl rfl

/-- Witness for C10: with anti-replay on and OPA denying, the first run of
`reqRead` is denied `[OPA_Deny]` without any `store_decision` call, leaving
the claimed entry pending; the identical retry is denied
`Inv_ReplayConcurrent` instead of receiving the earlier decision. -/
theorem C10_store_decision_only_after_audit_witness :
    (verifyCore envReplayOpaDeny {} reqRead).1 =
      .ok ⟨.DENY, ["OPA_Deny"], [], some "Denied by OPA policy"⟩ ∧
    (verifyCore envReplayOpaDeny {} reqRead).2.storeDecisionCalls = 0 ∧
    verifyCore envReplayOpaDeny (verifyCore envReplayOpaDeny {} reqRead).2 reqRead =
      (.ok (concurrentDeny "11111111-1111-1111-1111-111111111111"),
        (verifyCore envReplayOpaDeny {} reqRead).2) := by
  refine ⟨by decide, by decide, ?_⟩
  exact (C10_store_decision_only_after_audit envReplayOpaDeny {} reqRead).2.2.2.2.2.2.2
    fpReqRead rfl rfl (by decide) rfl (by decide)

end Casf
